import Mathlib

/-!
Verification of the route53resolver provider's resource store
(src/localstack/services/route53resolver/provider.py).

The provider keeps per-(account, region) collections of firewall rule
groups, firewall domain lists, firewall domains, firewall rules,
rule-group associations, query-log configs, query-log-config
associations and firewall configs, all held in Python dicts.  This file
gives a shallow embedding of that store and of the handler bodies the
claims are about.  Python dicts are modelled as insertion-ordered
association lists; every in-place mutation becomes explicit state
passing on the store record; raised exceptions become `Except` errors
paired with the (possibly partially mutated) store.
-/

namespace Route53Resolver

set_option autoImplicit false

universe u

/-- A Python `dict` with string keys, modelled as an insertion-ordered
association list.  Lookup returns the first binding; assignment to an
existing key overwrites the value in place, assignment to a fresh key
appends at the end (Python 3.7+ dict semantics). -/
abbrev Dict (α : Type u) : Type u := List (String × α)

/-- Python `d.get(key)`: the value bound to `key`, if any. -/
def dictGet {α : Type u} : Dict α → String → Option α
  | [], _ => none
  | (k, v) :: rest, key => if k = key then some v else dictGet rest key

/-- Python `d[key] = val`: overwrite in place, or append a fresh binding. -/
def dictInsert {α : Type u} : Dict α → String → α → Dict α
  | [], key, val => [(key, val)]
  | (k, v) :: rest, key, val =>
    if k = key then (k, val) :: rest else (k, v) :: dictInsert rest key val

/-- Python `d.values()`, in insertion order. -/
def dictValues {α : Type u} (d : Dict α) : List α := d.map Prod.snd

/-- Python `key in d`. -/
def dictContains {α : Type u} (d : Dict α) (key : String) : Bool :=
  (dictGet d key).isSome

@[simp] theorem dictGet_nil {α : Type u} (key : String) :
    dictGet ([] : Dict α) key = none := rfl

@[simp] theorem dictGet_cons {α : Type u} (k key : String) (v : α) (rest : Dict α) :
    dictGet ((k, v) :: rest) key = if k = key then some v else dictGet rest key := rfl

theorem dictGet_dictInsert_self {α : Type u} (d : Dict α) (key : String) (val : α) :
    dictGet (dictInsert d key val) key = some val := by
  induction d with
  | nil => simp [dictInsert]
  | cons hd tl ih =>
    obtain ⟨k, v⟩ := hd
    by_cases h : k = key
    · simp [dictInsert, h]
    · simp [dictInsert, h, ih]

theorem dictGet_dictInsert_ne {α : Type u} (d : Dict α) (key key' : String) (val : α)
    (h : key ≠ key') :
    dictGet (dictInsert d key val) key' = dictGet d key' := by
  induction d with
  | nil => simp [dictInsert, h]
  | cons hd tl ih =>
    obtain ⟨k, v⟩ := hd
    by_cases hk : k = key
    · subst hk
      simp [dictInsert, h]
    · simp [dictInsert, hk, ih]

@[simp] theorem dictInsert_nil {α : Type u} (key : String) (val : α) :
    dictInsert ([] : Dict α) key val = [(key, val)] := rfl

theorem dictInsert_cons {α : Type u} (k key : String) (v val : α) (rest : Dict α) :
    dictInsert ((k, v) :: rest) key val =
      if k = key then (k, val) :: rest else (k, v) :: dictInsert rest key val := rfl

@[simp] theorem dictValues_nil {α : Type u} : dictValues ([] : Dict α) = [] := rfl

@[simp] theorem dictValues_cons {α : Type u} (k : String) (v : α) (rest : Dict α) :
    dictValues ((k, v) :: rest) = v :: dictValues rest := rfl

/-- Every value of `dictInsert d key val` is `val` or an old value. -/
theorem mem_dictValues_dictInsert {α : Type u} (d : Dict α) (key : String) (val w : α)
    (hw : w ∈ dictValues (dictInsert d key val)) :
    w = val ∨ w ∈ dictValues d := by
  induction d with
  | nil => simpa [dictInsert] using hw
  | cons hd tl ih =>
    obtain ⟨k, v⟩ := hd
    by_cases hk : k = key
    · subst hk
      rw [dictInsert_cons, if_pos rfl] at hw
      simp only [dictValues_cons, List.mem_cons] at hw ⊢
      rcases hw with h | h
      · exact Or.inl h
      · exact Or.inr (Or.inr h)
    · rw [dictInsert_cons, if_neg hk] at hw
      simp only [dictValues_cons, List.mem_cons] at hw ⊢
      rcases hw with h | h
      · exact Or.inr (Or.inl h)
      · rcases ih h with h' | h'
        · exact Or.inl h'
        · exact Or.inr (Or.inr h')

/-- Inserting a value that is `R`-compatible with every stored value
preserves pairwise `R` over the values, whether the insert overwrites an
existing binding or appends a fresh one. -/
theorem pairwise_dictValues_dictInsert {α : Type u} (R : α → α → Prop)
    (d : Dict α) (key : String) (val : α)
    (hpw : List.Pairwise R (dictValues d))
    (hcompat : ∀ w ∈ dictValues d, R w val ∧ R val w) :
    List.Pairwise R (dictValues (dictInsert d key val)) := by
  induction d with
  | nil => simp [dictInsert]
  | cons hd tl ih =>
    obtain ⟨k, v⟩ := hd
    simp only [dictValues_cons, List.pairwise_cons] at hpw
    by_cases hk : k = key
    · subst hk
      rw [dictInsert_cons, if_pos rfl]
      simp only [dictValues_cons, List.pairwise_cons]
      refine ⟨fun w hw => ?_, hpw.2⟩
      exact (hcompat w (by simp [hw])).2
    · rw [dictInsert_cons, if_neg hk]
      simp only [dictValues_cons, List.pairwise_cons]
      constructor
      · intro w hw
        rcases mem_dictValues_dictInsert tl key val w hw with h | h
        · exact h ▸ (hcompat v (by simp)).1
        · exact hpw.1 w h
      · exact ih hpw.2 (fun w hw => hcompat w (by simp [hw]))

/-! ## Record types

Each structure carries exactly the keys the provider writes into the
corresponding TypedDict when it creates the record.  Timestamps are
opaque ISO strings supplied by the caller of the embedding (the
provider reads the wall clock, an external input). -/

structure FirewallRuleGroup where
  Id : String
  Arn : String
  Name : String
  RuleCount : Nat
  Status : String
  OwnerId : String
  ShareStatus : String
  StatusMessage : String
  CreatorRequestId : String
  CreationTime : String
  ModificationTime : String
deriving DecidableEq

structure FirewallDomainList where
  Id : String
  Arn : String
  Name : String
  DomainCount : Nat
  Status : String
  StatusMessage : String
  ManagedOwnerName : String
  CreatorRequestId : String
  CreationTime : String
  ModificationTime : String
deriving DecidableEq

/-- An element of the Python list held in `store.firewall_domains`.
The ADD branch of `update_firewall_domains` calls `list.append` with
the whole incoming batch, so at runtime an element is either a domain
string or a whole list of domain strings. -/
inductive DomainEntry where
  | dom (s : String)
  | nested (ds : List String)
deriving DecidableEq

structure FirewallRule where
  FirewallRuleGroupId : String
  FirewallDomainListId : String
  Name : String
  Priority : Nat
  Action : String
  BlockResponse : Option String
  BlockOverrideDomain : Option String
  BlockOverrideDnsType : Option String
  BlockOverrideTtl : Option Nat
  CreatorRequestId : String
  CreationTime : String
  ModificationTime : String
deriving DecidableEq

structure FirewallRuleGroupAssociation where
  Id : String
  Arn : String
  FirewallRuleGroupId : String
  VpcId : String
  Name : String
  Priority : Nat
  MutationProtection : String
  Status : String
  StatusMessage : String
  CreatorRequestId : String
  CreationTime : String
  ModificationTime : String
deriving DecidableEq

structure ResolverQueryLogConfig where
  Id : String
  Arn : String
  Name : String
  AssociationCount : Nat
  Status : String
  OwnerId : String
  ShareStatus : String
  DestinationArn : String
  CreatorRequestId : String
  CreationTime : String
deriving DecidableEq

structure ResolverQueryLogConfigAssociation where
  Id : String
  ResolverQueryLogConfigId : String
  ResourceId : String
  Status : String
  Error : String
  ErrorMessage : String
  CreationTime : String
deriving DecidableEq

structure FirewallConfig where
  Id : String
  ResourceId : String
  OwnerId : String
  FirewallFailOpen : String
deriving DecidableEq

/-- The per-(account, region) `Route53ResolverStore`. -/
structure Route53ResolverStore where
  firewall_rule_groups : Dict FirewallRuleGroup
  firewall_domain_lists : Dict FirewallDomainList
  firewall_domains : Dict (List DomainEntry)
  firewall_rules : Dict (Dict FirewallRule)
  firewall_rule_group_associations : Dict FirewallRuleGroupAssociation
  resolver_query_log_configs : Dict ResolverQueryLogConfig
  resolver_query_log_config_associations : Dict ResolverQueryLogConfigAssociation
  firewall_configs : Dict FirewallConfig
deriving DecidableEq

def emptyStore : Route53ResolverStore :=
  { firewall_rule_groups := []
    firewall_domain_lists := []
    firewall_domains := []
    firewall_rules := []
    firewall_rule_group_associations := []
    resolver_query_log_configs := []
    resolver_query_log_config_associations := []
    firewall_configs := [] }

/-- Errors a handler can raise.  `resourceNotFound` embeds
ResourceNotFoundException, `validation` embeds ValidationException
(carrying the formatted message), `attributeError` and `nameError`
embed the corresponding Python runtime errors that buggy handler code
can hit. -/
inductive ApiError where
  | resourceNotFound (resourceId : String)
  | validation (message : String)
  | attributeError (message : String)
  | nameError (name : String)
deriving DecidableEq

/-! ## update_firewall_domains (provider.py lines 220-261) -/

inductive FirewallDomainUpdateOperation where
  | ADD
  | REMOVE
  | REPLACE
deriving DecidableEq

structure UpdateFirewallDomainsResponse where
  Id : String
  Name : String
  Status : String
  StatusMessage : String
deriving DecidableEq

/-- Python `firewall_domains.remove(domain)`: drop the first element equal
to the domain string (a nested list element never compares equal to a
string in Python, so only `.dom` entries can be removed). -/
def removeFirst : List DomainEntry → String → List DomainEntry
  | [], _ => []
  | e :: es, d => if e = DomainEntry.dom d then es else e :: removeFirst es d

/-- The REMOVE loop body: walk the batch, removing each domain that is
present; stop at the first absent one.  Returns the (partially) mutated
entry list and the failing domain, if any. -/
def removeDomainsLoop : List DomainEntry → List String → List DomainEntry × Option String
  | es, [] => (es, none)
  | es, d :: rest =>
    if DomainEntry.dom d ∈ es then removeDomainsLoop (removeFirst es d) rest
    else (es, some d)

/-- Message of the ValidationException raised by the REMOVE branch. -/
def removeMissingDomainMsg (firewallDomainListId domain traceId : String) : String :=
  "[RSLVR-02502] The following domains don't exist in the DNS Firewall domain list '"
    ++ firewallDomainListId
    ++ "'. You can't delete a domain that isn't in a domain list. Example unknown domain: '"
    ++ domain ++ "'. Trace Id: '" ++ traceId ++ "'"

/-- Embeds `Route53ResolverProvider.update_firewall_domains`.  `now` is
the wall-clock reading and `traceId` the generated trace id, both
external inputs.  The store accessors `get_firewall_domain_list`
(record or Not-Found) and `get_firewall_domain` (side-table lookup)
live in models.py, which is not under src/, and are modelled from the
spec as lookups in the scoped collections.  Python truthiness makes the
`if not firewall_domains:` / `if firewall_domains:` guards treat a
missing key and an empty list alike.  The ADD branch on a non-empty
list calls `list.append` with the whole incoming batch, so the batch is
appended as a single nested element.  The REMOVE branch mutates the
live list in place, so on a validation failure the removals already
performed stay in the store while the parent record is left untouched. -/
def update_firewall_domains (store : Route53ResolverStore)
    (firewall_domain_list_id : String) (operation : FirewallDomainUpdateOperation)
    (domains : List String) (now traceId : String) :
    Except ApiError UpdateFirewallDomainsResponse × Route53ResolverStore :=
  match dictGet store.firewall_domain_lists firewall_domain_list_id with
  | none => (Except.error (ApiError.resourceNotFound firewall_domain_list_id), store)
  | some firewall_domain_list =>
    let firewall_domains := (dictGet store.firewall_domains firewall_domain_list_id).getD []
    let step : Except ApiError (Option (List DomainEntry)) :=
      match operation with
      | .ADD =>
        if firewall_domains.isEmpty then
          Except.ok (some (domains.map DomainEntry.dom))
        else
          Except.ok (some (firewall_domains ++ [DomainEntry.nested domains]))
      | .REMOVE =>
        if firewall_domains.isEmpty then
          Except.ok none
        else
          match removeDomainsLoop firewall_domains domains with
          | (es, none) => Except.ok (some es)
          | (_, some d) =>
            Except.error (ApiError.validation
              (removeMissingDomainMsg firewall_domain_list_id d traceId))
      | .REPLACE => Except.ok (some (domains.map DomainEntry.dom))
    match step with
    | Except.error e =>
      -- the exception propagates, but in-place removals already done
      -- by the REMOVE loop remain in the store
      let partialEntries := (removeDomainsLoop firewall_domains domains).1
      (Except.error e,
        { store with firewall_domains :=
            dictInsert store.firewall_domains firewall_domain_list_id partialEntries })
    | Except.ok newEntries =>
      let fdl := { firewall_domain_list with
        StatusMessage := "Finished domain list update"
        ModificationTime := now }
      let fd := match newEntries with
        | some es => dictInsert store.firewall_domains firewall_domain_list_id es
        | none => store.firewall_domains
      (Except.ok
        { Id := fdl.Id, Name := fdl.Name, Status := fdl.Status,
          StatusMessage := fdl.StatusMessage },
        { store with
            firewall_domain_lists :=
              dictInsert store.firewall_domain_lists firewall_domain_list_id fdl
            firewall_domains := fd })

/-! ## Counting lemmas for the REMOVE loop -/

/-- Number of occurrences of the domain string `s` (as a plain, non-nested
entry) in an entry list. -/
def domCount (s : String) : List DomainEntry → Nat
  | [] => 0
  | e :: rest => (if e = DomainEntry.dom s then 1 else 0) + domCount s rest

theorem mem_iff_domCount_pos (s : String) (es : List DomainEntry) :
    DomainEntry.dom s ∈ es ↔ 0 < domCount s es := by
  induction es with
  | nil => simp [domCount]
  | cons e rest ih =>
    by_cases h : e = DomainEntry.dom s
    · subst h
      simp [domCount]
    · simp only [List.mem_cons, domCount, if_neg h, Nat.zero_add]
      constructor
      · intro hmem
        rcases hmem with hmem | hmem
        · exact absurd hmem.symm h
        · exact ih.mp hmem
      · intro hpos
        exact Or.inr (ih.mpr hpos)

theorem removeFirst_sublist (es : List DomainEntry) (d : String) :
    List.Sublist (removeFirst es d) es := by
  induction es with
  | nil => simp [removeFirst]
  | cons e rest ih =>
    by_cases h : e = DomainEntry.dom d
    · simp only [removeFirst, if_pos h]
      exact List.sublist_cons_self e rest
    · simp only [removeFirst, if_neg h]
      exact List.Sublist.cons₂ e ih

theorem not_mem_removeFirst (es : List DomainEntry) (d x : String)
    (hx : DomainEntry.dom x ∉ es) : DomainEntry.dom x ∉ removeFirst es d :=
  fun hmem => hx ((removeFirst_sublist es d).subset hmem)

theorem domCount_removeFirst_self (es : List DomainEntry) (d : String)
    (hd : DomainEntry.dom d ∈ es) :
    domCount d (removeFirst es d) = domCount d es - 1 := by
  induction es with
  | nil => cases hd
  | cons e rest ih =>
    by_cases h : e = DomainEntry.dom d
    · subst h
      simp [removeFirst, domCount]
    · have hd' : DomainEntry.dom d ∈ rest := by
        rcases List.mem_cons.mp hd with h' | h'
        · exact absurd h'.symm h
        · exact h'
      have hpos : 0 < domCount d rest := (mem_iff_domCount_pos d rest).mp hd'
      simp only [removeFirst, if_neg h, domCount, ih hd']
      omega

theorem domCount_removeFirst_ne (es : List DomainEntry) (d s : String)
    (hne : s ≠ d) :
    domCount s (removeFirst es d) = domCount s es := by
  induction es with
  | nil => simp [removeFirst]
  | cons e rest ih =>
    by_cases h : e = DomainEntry.dom d
    · subst h
      have hds : d ≠ s := Ne.symm hne
      simp [removeFirst, domCount, hds]
    · simp [removeFirst, if_neg h, domCount, ih]

/-- Number of occurrences of the string `s` in a batch. -/
def strCount (s : String) : List String → Nat
  | [] => 0
  | t :: rest => (if t = s then 1 else 0) + strCount s rest

/-- Processing the batch left to right against the live collection,
every batch entry is present at its turn: the original collection holds
strictly more plain occurrences of each entry's domain than the number
of earlier batch entries equal to it (each of which removed one
occurrence).  Stated positionally over the batch, so it is decidable on
concrete inputs. -/
def seqRemovable (cur : List DomainEntry) (b : List String) : Prop :=
  ∀ i : Fin b.length, strCount (b.get i) (b.take i.val) < domCount (b.get i) cur

instance instDecidableSeqRemovable (cur : List DomainEntry) (b : List String) :
    Decidable (seqRemovable cur b) :=
  inferInstanceAs (Decidable (∀ i : Fin b.length,
    strCount (b.get i) (b.take i.val) < domCount (b.get i) cur))

/-- The positional form of `seqRemovable` coincides with the
decomposition form used by the loop inductions. -/
theorem seqRemovable_iff_splits (cur : List DomainEntry) (b : List String) :
    seqRemovable cur b ↔
      ∀ pre s post, b = pre ++ s :: post → strCount s pre < domCount s cur := by
  constructor
  · intro h pre s post hsplit
    subst hsplit
    have hi : pre.length < (pre ++ s :: post).length := by simp
    have hthis := h ⟨pre.length, hi⟩
    have hget : (pre ++ s :: post).get ⟨pre.length, hi⟩ = s := by
      simp [List.get_eq_getElem, List.getElem_append_right (Nat.le_refl pre.length)]
    have htake : (pre ++ s :: post).take pre.length = pre := List.take_left pre (s :: post)
    rw [hget, htake] at hthis
    exact hthis
  · intro h i
    have hsplit : b = b.take i.val ++ b.get i :: b.drop (i.val + 1) := by
      rw [List.get_eq_getElem, ← List.drop_eq_getElem_cons i.isLt]
      exact (List.take_append_drop i.val b).symm
    exact h (b.take i.val) (b.get i) (b.drop (i.val + 1)) hsplit

/-- Unfolding a sequentially removable batch one step: the head is
present, and the tail is sequentially removable from the collection
with one occurrence of the head removed. -/
theorem seqRemovable_splits_cons (cur : List DomainEntry) (d : String)
    (rest : List String)
    (h : ∀ pre s post, d :: rest = pre ++ s :: post → strCount s pre < domCount s cur) :
    0 < domCount d cur ∧
    (∀ pre s post, rest = pre ++ s :: post →
      strCount s pre < domCount s (removeFirst cur d)) := by
  have hd : 0 < domCount d cur := by simpa [strCount] using h [] d rest rfl
  refine ⟨hd, ?_⟩
  intro pre s post hsplit
  have hcons : d :: rest = (d :: pre) ++ s :: post := by rw [hsplit]; rfl
  have hlt := h (d :: pre) s post hcons
  by_cases hsd : s = d
  · subst hsd
    have hmem : DomainEntry.dom s ∈ cur := (mem_iff_domCount_pos s cur).mpr hd
    rw [domCount_removeFirst_self cur s hmem]
    have hc : strCount s (s :: pre) = 1 + strCount s pre := by simp [strCount]
    omega
  · rw [domCount_removeFirst_ne cur d s hsd]
    have hds : d ≠ s := Ne.symm hsd
    have hc : strCount s (d :: pre) = strCount s pre := by simp [strCount, hds]
    omega

/-- A sequentially removable batch is fully processed; each domain
string loses exactly as many plain occurrences as it has batch entries. -/
theorem removeDomainsLoop_seq_success (batch : List String) :
    ∀ cur : List DomainEntry,
      (∀ pre s post, batch = pre ++ s :: post → strCount s pre < domCount s cur) →
      (removeDomainsLoop cur batch).2 = none ∧
      ∀ s, domCount s (removeDomainsLoop cur batch).1
        = domCount s cur - strCount s batch := by
  induction batch with
  | nil =>
    intro cur _
    refine ⟨rfl, fun s => ?_⟩
    simp [removeDomainsLoop, strCount]
  | cons d rest ih =>
    intro cur h
    obtain ⟨hd, h'⟩ := seqRemovable_splits_cons cur d rest h
    have hmem : DomainEntry.dom d ∈ cur := (mem_iff_domCount_pos d cur).mpr hd
    have hloop : removeDomainsLoop cur (d :: rest)
        = removeDomainsLoop (removeFirst cur d) rest := by
      simp [removeDomainsLoop, hmem]
    obtain ⟨h2, hcnt⟩ := ih (removeFirst cur d) h'
    refine ⟨by rw [hloop]; exact h2, fun s => ?_⟩
    rw [hloop, hcnt s]
    by_cases hs : s = d
    · subst hs
      rw [domCount_removeFirst_self cur s hmem]
      have hc : strCount s (s :: rest) = 1 + strCount s rest := by simp [strCount]
      omega
    · rw [domCount_removeFirst_ne cur d s hs]
      have hds : d ≠ s := Ne.symm hs
      have hc : strCount s (d :: rest) = strCount s rest := by simp [strCount, hds]
      omega

/-- If the prefix `pre` is sequentially removable but `d` is exhausted
at its turn — the collection holds no more occurrences of `d` than the
prefix already removed — the REMOVE loop stops at `d`, leaving exactly
the prefix's removals applied. -/
theorem removeDomainsLoop_seq_aborts (pre : List String) :
    ∀ (cur : List DomainEntry) (d : String) (post : List String),
      (∀ p s q, pre = p ++ s :: q → strCount s p < domCount s cur) →
      domCount d cur ≤ strCount d pre →
      removeDomainsLoop cur (pre ++ d :: post)
        = ((removeDomainsLoop cur pre).1, some d) := by
  induction pre with
  | nil =>
    intro cur d post _ hd
    have hz : domCount d cur = 0 := Nat.le_zero.mp (by simpa [strCount] using hd)
    have hnm : DomainEntry.dom d ∉ cur := by
      intro hmem
      have := (mem_iff_domCount_pos d cur).mp hmem
      omega
    simp [removeDomainsLoop, hnm]
  | cons a pre' ih =>
    intro cur d post h hd
    obtain ⟨ha, h'⟩ := seqRemovable_splits_cons cur a pre' h
    have hmem : DomainEntry.dom a ∈ cur := (mem_iff_domCount_pos a cur).mpr ha
    have hd' : domCount d (removeFirst cur a) ≤ strCount d pre' := by
      by_cases hda : d = a
      · subst hda
        rw [domCount_removeFirst_self cur d hmem]
        have hc : strCount d (d :: pre') = 1 + strCount d pre' := by simp [strCount]
        omega
      · rw [domCount_removeFirst_ne cur a d hda]
        have had : a ≠ d := Ne.symm hda
        have hc : strCount d (a :: pre') = strCount d pre' := by simp [strCount, had]
        omega
    have hstep : removeDomainsLoop cur ((a :: pre') ++ d :: post)
        = removeDomainsLoop (removeFirst cur a) (pre' ++ d :: post) := by
      simp [removeDomainsLoop, hmem]
    have hstep' : removeDomainsLoop cur (a :: pre')
        = removeDomainsLoop (removeFirst cur a) pre' := by
      simp [removeDomainsLoop, hmem]
    rw [hstep, ih (removeFirst cur a) d post h' hd', hstep']

/-! ## Sample data used by concrete witnesses and counterexamples -/

def fdlSample : FirewallDomainList :=
  { Id := "rslvr-fdl-1", Arn := "arn-fdl-1", Name := "sample-list", DomainCount := 0,
    Status := "COMPLETE", StatusMessage := "Created Firewall Domain List",
    ManagedOwnerName := "000000000000", CreatorRequestId := "req-1",
    CreationTime := "t0", ModificationTime := "t0" }

/-- A store holding one firewall domain list with no domains yet. -/
def storeOneList : Route53ResolverStore :=
  { emptyStore with firewall_domain_lists := [("rslvr-fdl-1", fdlSample)] }

/-- A store holding one firewall domain list whose domain collection is
["a.com", "b.com"]. -/
def storeTwoDomains : Route53ResolverStore :=
  { emptyStore with
      firewall_domain_lists := [("rslvr-fdl-1", fdlSample)]
      firewall_domains :=
        [("rslvr-fdl-1", [DomainEntry.dom "a.com", DomainEntry.dom "b.com"])] }

/-- C1: the claim says ADD extends the existing ordered sequence with the
given domains one by one, so that ADD ["a.com"] followed by ADD ["b.com"]
yields ["a.com", "b.com"].  The code instead calls `list.append` with the
whole batch, so the second ADD pushes the batch as one nested element:
the resulting sequence is ["a.com", ["b.com"]], not ["a.com", "b.com"]
(the surrounding code — REMOVE's membership test and
list_firewall_domains — treats every element as a single domain string,
so this is a slip, not intent). -/
theorem update_firewall_domains_add_appends_batch_as_single_element :
    (∃ resp, (update_firewall_domains storeOneList "rslvr-fdl-1"
        FirewallDomainUpdateOperation.ADD ["a.com"] "t1" "tr1").1 = Except.ok resp) ∧
    (∃ resp, (update_firewall_domains
        (update_firewall_domains storeOneList "rslvr-fdl-1"
          FirewallDomainUpdateOperation.ADD ["a.com"] "t1" "tr1").2
        "rslvr-fdl-1" FirewallDomainUpdateOperation.ADD ["b.com"] "t2" "tr2").1
      = Except.ok resp) ∧
    dictGet (update_firewall_domains
        (update_firewall_domains storeOneList "rslvr-fdl-1"
          FirewallDomainUpdateOperation.ADD ["a.com"] "t1" "tr1").2
        "rslvr-fdl-1" FirewallDomainUpdateOperation.ADD ["b.com"] "t2" "tr2").2.firewall_domains
      "rslvr-fdl-1"
      = some [DomainEntry.dom "a.com", DomainEntry.nested ["b.com"]] ∧
    dictGet (update_firewall_domains
        (update_firewall_domains storeOneList "rslvr-fdl-1"
          FirewallDomainUpdateOperation.ADD ["a.com"] "t1" "tr1").2
        "rslvr-fdl-1" FirewallDomainUpdateOperation.ADD ["b.com"] "t2" "tr2").2.firewall_domains
      "rslvr-fdl-1"
      ≠ some [DomainEntry.dom "a.com", DomainEntry.dom "b.com"] := by
  refine ⟨⟨_, rfl⟩, ⟨_, rfl⟩, by decide, by decide⟩

/-- C2 counterexample: the claim says a REMOVE whose batch contains a
domain absent from the list's current domain set aborts with a
Validation error.  On a list whose current domain collection is empty,
"x.com" is absent from it, yet the whole REMOVE block is skipped by the
`if firewall_domains:` truthiness guard and the call succeeds. -/
theorem update_firewall_domains_remove_on_empty_list_not_validation :
    (dictGet storeOneList.firewall_domains "rslvr-fdl-1" = none) ∧
    (∃ resp, (update_firewall_domains storeOneList "rslvr-fdl-1"
        FirewallDomainUpdateOperation.REMOVE ["x.com"] "t1" "tr1").1 = Except.ok resp) ∧
    ∀ m, (update_firewall_domains storeOneList "rslvr-fdl-1"
        FirewallDomainUpdateOperation.REMOVE ["x.com"] "t1" "tr1").1
      ≠ Except.error (ApiError.validation m) := by
  refine ⟨by decide, ⟨_, rfl⟩, fun m h => ?_⟩
  have hok : (update_firewall_domains storeOneList "rslvr-fdl-1"
      FirewallDomainUpdateOperation.REMOVE ["x.com"] "t1" "tr1").1
      = Except.ok (UpdateFirewallDomainsResponse.mk "rslvr-fdl-1" "sample-list"
          "COMPLETE" "Finished domain list update") := rfl
  rw [hok] at h
  exact Except.noConfusion h

/-- C2 (amended): for a firewall domain list whose current domain
collection is non-empty, REMOVE processes the batch left to right
against the live collection, so a batch entry is present at its turn
exactly when the original collection holds more plain occurrences of
its domain than the earlier batch entries equal to it; the operation
aborts with a Validation error at the first batch entry absent at its
turn — duplicate batch entries count, so REMOVE ["a.com", "a.com"] on
["a.com"] aborts at the second entry — with the earlier removals
applied and the parent record untouched; if every batch entry is
present at its turn, the call succeeds and each domain string loses
exactly as many occurrences as it has batch entries.  If the current
collection is empty, the REMOVE block is skipped and the call succeeds
even for absent domains. -/
theorem update_firewall_domains_remove_contract
    (store : Route53ResolverStore) (listId now traceId : String)
    (batch : List String) (fdl : FirewallDomainList) (cur : List DomainEntry)
    (hfdl : dictGet store.firewall_domain_lists listId = some fdl)
    (hcur : cur = (dictGet store.firewall_domains listId).getD []) :
    (cur = [] →
      ∃ resp, (update_firewall_domains store listId
          FirewallDomainUpdateOperation.REMOVE batch now traceId).1 = Except.ok resp) ∧
    (∀ pre d post, batch = pre ++ d :: post → cur ≠ [] →
      seqRemovable cur pre → domCount d cur ≤ strCount d pre →
      (update_firewall_domains store listId
          FirewallDomainUpdateOperation.REMOVE batch now traceId).1
        = Except.error (ApiError.validation (removeMissingDomainMsg listId d traceId)) ∧
      (∀ s, domCount s ((dictGet (update_firewall_domains store listId
          FirewallDomainUpdateOperation.REMOVE batch now traceId).2.firewall_domains
            listId).getD [])
        = domCount s cur - strCount s pre) ∧
      (update_firewall_domains store listId
          FirewallDomainUpdateOperation.REMOVE batch now traceId).2.firewall_domain_lists
        = store.firewall_domain_lists) ∧
    (cur ≠ [] → seqRemovable cur batch →
      (∃ resp, (update_firewall_domains store listId
          FirewallDomainUpdateOperation.REMOVE batch now traceId).1 = Except.ok resp) ∧
      (∀ s, domCount s ((dictGet (update_firewall_domains store listId
          FirewallDomainUpdateOperation.REMOVE batch now traceId).2.firewall_domains
            listId).getD [])
        = domCount s cur - strCount s batch)) := by
  refine ⟨?_, ?_, ?_⟩
  · intro hnil
    rw [hnil] at hcur
    have h : (update_firewall_domains store listId
        FirewallDomainUpdateOperation.REMOVE batch now traceId).1
        = Except.ok { Id := fdl.Id, Name := fdl.Name, Status := fdl.Status,
                      StatusMessage := "Finished domain list update" } := by
      simp only [update_firewall_domains, hfdl, ← hcur]
      rfl
    exact ⟨_, h⟩
  · intro pre d post hbatch hne hpre hdle
    subst hbatch
    have hcurne : cur.isEmpty = false := by
      cases cur with
      | nil => exact absurd rfl hne
      | cons a l => rfl
    have hsplits := (seqRemovable_iff_splits cur pre).mp hpre
    have hloopfull := removeDomainsLoop_seq_aborts pre cur d post hsplits hdle
    have hprecnt := (removeDomainsLoop_seq_success pre cur hsplits).2
    refine ⟨?_, ?_, ?_⟩
    · simp only [update_firewall_domains, hfdl, ← hcur, hcurne, Bool.false_eq_true,
        if_false, hloopfull]
    · intro s
      simp only [update_firewall_domains, hfdl, ← hcur, hcurne, Bool.false_eq_true,
        if_false, hloopfull]
      rw [dictGet_dictInsert_self]
      simpa using hprecnt s
    · simp only [update_firewall_domains, hfdl, ← hcur, hcurne, Bool.false_eq_true,
        if_false, hloopfull]
  · intro hne hseq
    have hcurne : cur.isEmpty = false := by
      cases cur with
      | nil => exact absurd rfl hne
      | cons a l => rfl
    have hsplits := (seqRemovable_iff_splits cur batch).mp hseq
    obtain ⟨h2, hcnt⟩ := removeDomainsLoop_seq_success batch cur hsplits
    rcases hl : removeDomainsLoop cur batch with ⟨es, o⟩
    have ho : o = none := by rw [hl] at h2; exact h2
    subst ho
    constructor
    · have h : (update_firewall_domains store listId
          FirewallDomainUpdateOperation.REMOVE batch now traceId).1
          = Except.ok { Id := fdl.Id, Name := fdl.Name, Status := fdl.Status,
                        StatusMessage := "Finished domain list update" } := by
        simp only [update_firewall_domains, hfdl, ← hcur, hcurne, Bool.false_eq_true,
          if_false, hl]
      exact ⟨_, h⟩
    · intro s
      have hthis := hcnt s
      rw [hl] at hthis
      simp only [update_firewall_domains, hfdl, ← hcur, hcurne, Bool.false_eq_true,
        if_false, hl]
      rw [dictGet_dictInsert_self]
      simpa using hthis

/-- A store holding one firewall domain list whose domain collection is
["a.com"]. -/
def storeOneDomain : Route53ResolverStore :=
  { emptyStore with
      firewall_domain_lists := [("rslvr-fdl-1", fdlSample)]
      firewall_domains := [("rslvr-fdl-1", [DomainEntry.dom "a.com"])] }

/-- Witness for the amended REMOVE contract.  On the list holding
["a.com", "b.com"], REMOVE ["a.com", "zzz.com"] fails Validation at
"zzz.com" while the already-processed "a.com" stays removed; and on the
list holding just ["a.com"], the duplicate batch REMOVE
["a.com", "a.com"] aborts at the second entry — absent at its turn even
though its domain was present in the original collection. -/
theorem update_firewall_domains_remove_contract_witness :
    ((update_firewall_domains storeTwoDomains "rslvr-fdl-1"
        FirewallDomainUpdateOperation.REMOVE ["a.com", "zzz.com"] "t1" "tr1").1
      = Except.error (ApiError.validation
          (removeMissingDomainMsg "rslvr-fdl-1" "zzz.com" "tr1")) ∧
    (∀ s, domCount s ((dictGet (update_firewall_domains storeTwoDomains "rslvr-fdl-1"
        FirewallDomainUpdateOperation.REMOVE
          ["a.com", "zzz.com"] "t1" "tr1").2.firewall_domains "rslvr-fdl-1").getD [])
      = domCount s [DomainEntry.dom "a.com", DomainEntry.dom "b.com"]
          - strCount s ["a.com"]) ∧
    (update_firewall_domains storeTwoDomains "rslvr-fdl-1"
        FirewallDomainUpdateOperation.REMOVE
          ["a.com", "zzz.com"] "t1" "tr1").2.firewall_domain_lists
      = storeTwoDomains.firewall_domain_lists) ∧
    ((update_firewall_domains storeOneDomain "rslvr-fdl-1"
        FirewallDomainUpdateOperation.REMOVE ["a.com", "a.com"] "t1" "tr1").1
      = Except.error (ApiError.validation
          (removeMissingDomainMsg "rslvr-fdl-1" "a.com" "tr1")) ∧
    (∀ s, domCount s ((dictGet (update_firewall_domains storeOneDomain "rslvr-fdl-1"
        FirewallDomainUpdateOperation.REMOVE
          ["a.com", "a.com"] "t1" "tr1").2.firewall_domains "rslvr-fdl-1").getD [])
      = domCount s [DomainEntry.dom "a.com"] - strCount s ["a.com"]) ∧
    (update_firewall_domains storeOneDomain "rslvr-fdl-1"
        FirewallDomainUpdateOperation.REMOVE
          ["a.com", "a.com"] "t1" "tr1").2.firewall_domain_lists
      = storeOneDomain.firewall_domain_lists) :=
  ⟨(update_firewall_domains_remove_contract storeTwoDomains "rslvr-fdl-1" "t1" "tr1"
      ["a.com", "zzz.com"] fdlSample [DomainEntry.dom "a.com", DomainEntry.dom "b.com"]
      (by decide) (by decide)).2.1
    ["a.com"] "zzz.com" [] rfl (by decide) (by decide) (by decide),
   (update_firewall_domains_remove_contract storeOneDomain "rslvr-fdl-1" "t1" "tr1"
      ["a.com", "a.com"] fdlSample [DomainEntry.dom "a.com"]
      (by decide) (by decide)).2.1
    ["a.com"] "a.com" [] rfl (by decide) (by decide) (by decide)⟩

/-! ## Identifier and ARN generation

The id generators live in localstack/services/route53resolver/utils.py
and the ARN builders in localstack/utils/aws/aws_stack.py, neither of
which is under src/. -/

/-- Modelled from the spec: the generated ARN encodes the resource kind,
account and region as `service:resource-kind:account:region:generated-id`. -/
def resourceArn (resource_kind account region id : String) : String :=
  "route53resolver:" ++ resource_kind ++ ":" ++ account ++ ":" ++ region ++ ":" ++ id

/-- Modelled from the spec: fresh opaque identifier for a firewall rule
group; the random source is replaced by a deterministic seed. -/
def get_route53_resolver_firewall_rule_group_id (seed : Nat) : String :=
  "rslvr-frg-" ++ Nat.repr seed

/-- Modelled from the spec: fresh opaque identifier for a firewall
domain list. -/
def get_route53_resolver_firewall_domain_list_id (seed : Nat) : String :=
  "rslvr-fdl-" ++ Nat.repr seed

/-- Modelled from the spec: fresh opaque identifier for a firewall rule
group association. -/
def get_route53_resolver_firewall_rule_group_association_id (seed : Nat) : String :=
  "rslvr-frgassoc-" ++ Nat.repr seed

/-- Modelled from the spec: fresh opaque identifier for a resolver
query log config. -/
def get_resolver_query_log_config_id (seed : Nat) : String :=
  "rslvr-rqlc-" ++ Nat.repr seed

/-! ## Validation helpers

validate_priority / validate_mutation_protection / validate_destination_arn
live in utils.py, which is not under src/. -/

/-- Modelled from the spec: validate_priority fails closed when the
priority is outside the accepted range (taken as 100–9900).  A falsy
priority (absent, or 0) is not checked, because the update handlers
call the validator with a possibly-absent priority. -/
def validate_priority (priority : Option Nat) : Bool :=
  match priority with
  | some p => if p = 0 then true else decide (100 ≤ p) && decide (p ≤ 9900)
  | none => true

/-- Modelled from the spec: a truthy mutation-protection value must be
one of the accepted enum values ENABLED / DISABLED. -/
def validate_mutation_protection (mutation_protection : Option String) : Bool :=
  match mutation_protection with
  | some s => if s = "" then true else (s == "ENABLED" || s == "DISABLED")
  | none => true

/-- Modelled from the spec: the destination ARN must be well-formed,
taken as carrying the literal `arn:` marker up front. -/
def validate_destination_arn (destination_arn : String) : Bool :=
  destination_arn.data.take 4 == "arn:".data

/-- Python `a or b` on an optional string: a falsy left operand (absent
or empty) yields the right operand. -/
def pyStrOr (a : Option String) (b : String) : String :=
  match a with
  | some s => if s = "" then b else s
  | none => b

/-! ## associate_firewall_rule_group (provider.py lines 390-439) -/

/-- Message of the ValidationException raised on a duplicate
(VpcId, FirewallRuleGroupId) association.  The source's wording
mislabels the rule-group id as a VPC; it is reproduced as written. -/
def frgAssociationConflictMsg (vpc_id firewall_rule_group_id traceId : String) : String :=
  "[RSLVR-02302] This DNS Firewall rule group can't be associated to a VPC: '"
    ++ vpc_id ++ "'. It is already associated to VPC '" ++ firewall_rule_group_id
    ++ "'. Try again with another VPC or DNS Firewall rule group. Trace Id: '"
    ++ traceId ++ "'"

/-- Modelled from the spec: message of the validation error raised by
validate_priority, identifying the bad value. -/
def invalidPriorityMsg (priority : Nat) (traceId : String) : String :=
  "[RSLVR-00052] Invalid Priority: '" ++ Nat.repr priority
    ++ "'. Trace Id: '" ++ traceId ++ "'"

/-- Modelled from the spec: message of the validation error raised by
validate_mutation_protection, identifying the bad value. -/
def invalidMutationProtectionMsg (mutation_protection traceId : String) : String :=
  "[RSLVR-00053] Invalid MutationProtection: '" ++ mutation_protection
    ++ "'. Trace Id: '" ++ traceId ++ "'"

/-- The association record built by a successful
associate_firewall_rule_group call. -/
def newFirewallRuleGroupAssociation
    (account region creator_request_id firewall_rule_group_id vpc_id : String)
    (priority : Nat) (name : String) (mutation_protection : Option String)
    (newId now : String) : FirewallRuleGroupAssociation :=
  { Id := newId
    Arn := resourceArn "firewall-rule-group-associations" account region newId
    FirewallRuleGroupId := firewall_rule_group_id
    VpcId := vpc_id
    Name := name
    Priority := priority
    MutationProtection := pyStrOr mutation_protection "DISABLED"
    Status := "COMPLETE"
    StatusMessage := "Creating Firewall Rule Group Association"
    CreatorRequestId := creator_request_id
    CreationTime := now
    ModificationTime := now }

/-- Embeds `Route53ResolverProvider.associate_firewall_rule_group`.
`newId` is the generated association id, `now` the wall-clock reading,
`traceId` the generated trace id; `account`/`region` come from the
request context.  The handler validates priority and mutation
protection, scans every existing association in scope for one with the
same VpcId and FirewallRuleGroupId (rejecting with a conflict
ValidationException), and otherwise inserts a fresh association record.
The tagging collaborator call has no effect on the store and is not
modelled. -/
def associate_firewall_rule_group (store : Route53ResolverStore)
    (account region creator_request_id firewall_rule_group_id vpc_id : String)
    (priority : Nat) (name : String) (mutation_protection : Option String)
    (newId now traceId : String) :
    Except ApiError FirewallRuleGroupAssociation × Route53ResolverStore :=
  if validate_priority (some priority) = false then
    (Except.error (ApiError.validation (invalidPriorityMsg priority traceId)), store)
  else if validate_mutation_protection mutation_protection = false then
    (Except.error (ApiError.validation
      (invalidMutationProtectionMsg (mutation_protection.getD "") traceId)), store)
  else
    match (dictValues store.firewall_rule_group_associations).find?
        (fun a => a.VpcId == vpc_id && a.FirewallRuleGroupId == firewall_rule_group_id) with
    | some _ =>
      (Except.error (ApiError.validation
        (frgAssociationConflictMsg vpc_id firewall_rule_group_id traceId)), store)
    | none =>
      let assoc := newFirewallRuleGroupAssociation account region creator_request_id
        firewall_rule_group_id vpc_id priority name mutation_protection newId now
      (Except.ok assoc,
        { store with firewall_rule_group_associations :=
            dictInsert store.firewall_rule_group_associations newId assoc })

/-- The invariant of claim C3: no two associations in scope share the
same (VpcId, FirewallRuleGroupId) pair. -/
def atMostOneAssociationPerPair (store : Route53ResolverStore) : Prop :=
  List.Pairwise
    (fun a b : FirewallRuleGroupAssociation =>
      ¬(a.VpcId = b.VpcId ∧ a.FirewallRuleGroupId = b.FirewallRuleGroupId))
    (dictValues store.firewall_rule_group_associations)

/-- C3: given valid priority and mutation protection,
associate_firewall_rule_group succeeds exactly when no existing
association in scope carries the same (VpcId, FirewallRuleGroupId)
pair; on a duplicate pair it fails with the Validation error naming the
pair and leaves the store unchanged; and a successful call preserves
the at-most-one-association-per-pair invariant. -/
theorem associate_firewall_rule_group_pair_unique
    (store : Route53ResolverStore)
    (account region creator_request_id firewall_rule_group_id vpc_id : String)
    (priority : Nat) (name : String) (mutation_protection : Option String)
    (newId now traceId : String)
    (hp : validate_priority (some priority) = true)
    (hm : validate_mutation_protection mutation_protection = true) :
    ((∃ a s', associate_firewall_rule_group store account region creator_request_id
        firewall_rule_group_id vpc_id priority name mutation_protection newId now traceId
        = (Except.ok a, s'))
      ↔ ∀ a ∈ dictValues store.firewall_rule_group_associations,
          ¬(a.VpcId = vpc_id ∧ a.FirewallRuleGroupId = firewall_rule_group_id)) ∧
    ((∃ a ∈ dictValues store.firewall_rule_group_associations,
        a.VpcId = vpc_id ∧ a.FirewallRuleGroupId = firewall_rule_group_id) →
      associate_firewall_rule_group store account region creator_request_id
        firewall_rule_group_id vpc_id priority name mutation_protection newId now traceId
        = (Except.error (ApiError.validation
            (frgAssociationConflictMsg vpc_id firewall_rule_group_id traceId)), store)) ∧
    (atMostOneAssociationPerPair store →
      ∀ a s', associate_firewall_rule_group store account region creator_request_id
        firewall_rule_group_id vpc_id priority name mutation_protection newId now traceId
        = (Except.ok a, s') → atMostOneAssociationPerPair s') := by
  have hp' : (validate_priority (some priority) = false) = False := by
    simp [hp]
  have hm' : (validate_mutation_protection mutation_protection = false) = False := by
    simp [hm]
  rcases hf : (dictValues store.firewall_rule_group_associations).find?
      (fun a => a.VpcId == vpc_id && a.FirewallRuleGroupId == firewall_rule_group_id)
      with _ | a0
  · have hnone : ∀ a ∈ dictValues store.firewall_rule_group_associations,
        ¬(a.VpcId = vpc_id ∧ a.FirewallRuleGroupId = firewall_rule_group_id) := by
      intro a ha hcontra
      have := List.find?_eq_none.mp hf a ha
      simp only [Bool.and_eq_true, beq_iff_eq] at this
      exact this ⟨hcontra.1, hcontra.2⟩
    refine ⟨?_, ?_, ?_⟩
    · constructor
      · intro _
        exact hnone
      · intro _
        have h1 : (associate_firewall_rule_group store account region creator_request_id
            firewall_rule_group_id vpc_id priority name mutation_protection
            newId now traceId).1
            = Except.ok (newFirewallRuleGroupAssociation account region creator_request_id
                firewall_rule_group_id vpc_id priority name mutation_protection newId now) := by
          simp only [associate_firewall_rule_group, hp', hm', if_false, hf]
        exact ⟨_, _, Prod.ext h1 rfl⟩
    · intro ⟨a, ha, hpa⟩
      exact absurd hpa (hnone a ha)
    · intro hinv a s' heq
      simp only [associate_firewall_rule_group, hp', hm', if_false, hf,
        Prod.mk.injEq] at heq
      obtain ⟨-, hs'⟩ := heq
      rw [← hs']
      apply pairwise_dictValues_dictInsert _ _ _ _ hinv
      intro w hw
      constructor
      · intro hcontra
        exact hnone w hw ⟨hcontra.1, hcontra.2⟩
      · intro hcontra
        exact hnone w hw ⟨hcontra.1.symm, hcontra.2.symm⟩
  · have ha0 := List.find?_some hf
    have ha0mem := List.mem_of_find?_eq_some hf
    simp only [Bool.and_eq_true, beq_iff_eq] at ha0
    refine ⟨?_, ?_, ?_⟩
    · constructor
      · intro ⟨a, s', heq⟩
        simp only [associate_firewall_rule_group, hp', hm', if_false, hf,
          Prod.mk.injEq] at heq
        exact absurd heq.1 (fun h => Except.noConfusion h)
      · intro hnone
        exact absurd ⟨ha0.1, ha0.2⟩ (hnone a0 ha0mem)
    · intro _
      simp only [associate_firewall_rule_group, hp', hm', if_false, hf]
    · intro _ a s' heq
      simp only [associate_firewall_rule_group, hp', hm', if_false, hf,
        Prod.mk.injEq] at heq
      exact absurd heq.1 (fun h => Except.noConfusion h)

/-- Witness for the association-uniqueness contract, instantiated on the
empty store with a valid priority (100) and absent mutation protection. -/
theorem associate_firewall_rule_group_pair_unique_witness :
    ((∃ a s', associate_firewall_rule_group emptyStore "000000000000" "us-east-1" "req-1"
        "rslvr-frg-1" "vpc-1" 100 "assoc-name" none "rslvr-frgassoc-1" "t0" "tr0"
        = (Except.ok a, s'))
      ↔ ∀ a ∈ dictValues emptyStore.firewall_rule_group_associations,
          ¬(a.VpcId = "vpc-1" ∧ a.FirewallRuleGroupId = "rslvr-frg-1")) ∧
    ((∃ a ∈ dictValues emptyStore.firewall_rule_group_associations,
        a.VpcId = "vpc-1" ∧ a.FirewallRuleGroupId = "rslvr-frg-1") →
      associate_firewall_rule_group emptyStore "000000000000" "us-east-1" "req-1"
        "rslvr-frg-1" "vpc-1" 100 "assoc-name" none "rslvr-frgassoc-1" "t0" "tr0"
        = (Except.error (ApiError.validation
            (frgAssociationConflictMsg "vpc-1" "rslvr-frg-1" "tr0")), emptyStore)) ∧
    (atMostOneAssociationPerPair emptyStore →
      ∀ a s', associate_firewall_rule_group emptyStore "000000000000" "us-east-1" "req-1"
        "rslvr-frg-1" "vpc-1" 100 "assoc-name" none "rslvr-frgassoc-1" "t0" "tr0"
        = (Except.ok a, s') → atMostOneAssociationPerPair s') :=
  associate_firewall_rule_group_pair_unique emptyStore "000000000000" "us-east-1" "req-1"
    "rslvr-frg-1" "vpc-1" 100 "assoc-name" none "rslvr-frgassoc-1" "t0" "tr0"
    (by decide) (by decide)

/-! ## list_firewall_domain_lists (provider.py lines 208-218) -/

/-- Modelled from the spec: the metadata-only projection of a firewall
domain list (`FirewallDomainListMetadata` comes from the generated API
types, which are not under src/) — fewer fields than the full record. -/
structure FirewallDomainListMetadata where
  Id : String
  Arn : String
  Name : String
  CreatorRequestId : String
  ManagedOwnerName : String
deriving DecidableEq

/-- Modelled from the spec: `select_from_typed_dict` projecting a full
firewall domain list record to its metadata shape. -/
def firewallDomainListMetadataOf (l : FirewallDomainList) : FirewallDomainListMetadata :=
  { Id := l.Id, Arn := l.Arn, Name := l.Name,
    CreatorRequestId := l.CreatorRequestId, ManagedOwnerName := l.ManagedOwnerName }

/-- Embeds `Route53ResolverProvider.list_firewall_domain_lists` as
written.  The loop body appends the projection to the loop variable
`firewall_domain_list` — a record dict, which has no `append` method —
instead of the accumulator `firewall_domain_lists`, so the first
iteration raises a Python AttributeError; when the collection is empty
the loop body never runs and the untouched empty accumulator is
returned. -/
def list_firewall_domain_lists (store : Route53ResolverStore) :
    Except ApiError (List FirewallDomainListMetadata) :=
  match dictValues store.firewall_domain_lists with
  | [] => Except.ok []
  | _ :: _ => Except.error
      (ApiError.attributeError "dict object has no attribute append")

/-- The behaviour the spec describes for list_firewall_domain_lists:
every record of the scoped collection, projected to the metadata shape. -/
def list_firewall_domain_lists_spec (store : Route53ResolverStore) :
    List FirewallDomainListMetadata :=
  (dictValues store.firewall_domain_lists).map firewallDomainListMetadataOf

/-- C4: the claim says list_firewall_domain_lists returns one metadata
projection per firewall domain list.  On a store holding one domain
list the handler instead fails with an AttributeError (it appends the
projection to the record instead of to the accumulator), so it never
returns the projected set the claim describes. -/
theorem list_firewall_domain_lists_drops_records :
    list_firewall_domain_lists storeOneList
      = Except.error (ApiError.attributeError "dict object has no attribute append") ∧
    list_firewall_domain_lists_spec storeOneList
      = [firewallDomainListMetadataOf fdlSample] ∧
    list_firewall_domain_lists storeOneList
      ≠ Except.ok (list_firewall_domain_lists_spec storeOneList) := by
  refine ⟨rfl, rfl, ?_⟩
  intro h
  exact Except.noConfusion h

/-! ## create_firewall_rule (lines 278-313) and list_firewall_rules (lines 330-351) -/

/-- Embeds `Route53ResolverProvider.create_firewall_rule`.  The rule
record is upserted into the nested mapping keyed by rule-group id then
domain-list id.  The `if store.firewall_rules.get(...)` truthiness test
treats a missing outer key and an empty inner dict alike: both branches
start from a fresh empty inner dict before the insert. -/
def innerRulesFor (store : Route53ResolverStore)
    (firewall_rule_group_id : String) : Dict FirewallRule :=
  match dictGet store.firewall_rules firewall_rule_group_id with
  | some m => if m.isEmpty then [] else m
  | none => []

def create_firewall_rule (store : Route53ResolverStore)
    (creator_request_id firewall_rule_group_id firewall_domain_list_id : String)
    (priority : Nat) (action name : String)
    (block_response block_override_domain block_override_dns_type : Option String)
    (block_override_ttl : Option Nat) (now : String) :
    FirewallRule × Route53ResolverStore :=
  let firewall_rule : FirewallRule :=
    { FirewallRuleGroupId := firewall_rule_group_id
      FirewallDomainListId := firewall_domain_list_id
      Name := name
      Priority := priority
      Action := action
      BlockResponse := block_response
      BlockOverrideDomain := block_override_domain
      BlockOverrideDnsType := block_override_dns_type
      BlockOverrideTtl := block_override_ttl
      CreatorRequestId := creator_request_id
      CreationTime := now
      ModificationTime := now }
  let inner : Dict FirewallRule := innerRulesFor store firewall_rule_group_id
  let newRules := dictInsert store.firewall_rules firewall_rule_group_id
    (dictInsert inner firewall_domain_list_id firewall_rule)
  (firewall_rule, { store with firewall_rules := newRules })

/-- Embeds `Route53ResolverProvider.list_firewall_rules`.  All rules
stored under the group are collected (`.get(group_id, {})`); when there
are none — including when the group id is entirely unknown — the
handler raises ResourceNotFoundException (carrying the group id and a
trace id; only the id is modelled structurally). -/
def list_firewall_rules (store : Route53ResolverStore)
    (firewall_rule_group_id : String) : Except ApiError (List FirewallRule) :=
  let firewall_rules :=
    dictValues ((dictGet store.firewall_rules firewall_rule_group_id).getD [])
  if firewall_rules.length = 0 then
    Except.error (ApiError.resourceNotFound firewall_rule_group_id)
  else
    Except.ok firewall_rules

/-- C5: list_firewall_rules signals Not-Found exactly when the group
has zero rules in the store (also for an unknown group id), otherwise
returns exactly the stored rules; and after creating one rule under a
previously empty group the call returns exactly that record. -/
theorem list_firewall_rules_contract (store : Route53ResolverStore)
    (firewall_rule_group_id : String) :
    ((list_firewall_rules store firewall_rule_group_id
        = Except.error (ApiError.resourceNotFound firewall_rule_group_id))
      ↔ dictValues ((dictGet store.firewall_rules firewall_rule_group_id).getD []) = []) ∧
    (dictValues ((dictGet store.firewall_rules firewall_rule_group_id).getD []) ≠ [] →
      list_firewall_rules store firewall_rule_group_id
        = Except.ok (dictValues
            ((dictGet store.firewall_rules firewall_rule_group_id).getD []))) ∧
    (∀ (creator_request_id firewall_domain_list_id : String) (priority : Nat)
        (action name : String)
        (block_response block_override_domain block_override_dns_type : Option String)
        (block_override_ttl : Option Nat) (now : String),
      dictValues ((dictGet store.firewall_rules firewall_rule_group_id).getD []) = [] →
      list_firewall_rules
          (create_firewall_rule store creator_request_id firewall_rule_group_id
            firewall_domain_list_id priority action name block_response
            block_override_domain block_override_dns_type block_override_ttl now).2
          firewall_rule_group_id
        = Except.ok [(create_firewall_rule store creator_request_id firewall_rule_group_id
            firewall_domain_list_id priority action name block_response
            block_override_domain block_override_dns_type block_override_ttl now).1]) := by
  refine ⟨?_, ?_, ?_⟩
  · by_cases hr : dictValues
        ((dictGet store.firewall_rules firewall_rule_group_id).getD []) = []
    · simp [list_firewall_rules, hr]
    · have hlen : (dictValues
          ((dictGet store.firewall_rules firewall_rule_group_id).getD [])).length ≠ 0 :=
        fun h => hr (List.eq_nil_of_length_eq_zero h)
      simp only [list_firewall_rules, if_neg hlen]
      constructor
      · intro h
        exact Except.noConfusion h
      · intro h
        exact absurd h hr
  · intro hr
    have hlen : (dictValues
        ((dictGet store.firewall_rules firewall_rule_group_id).getD [])).length ≠ 0 :=
      fun h => hr (List.eq_nil_of_length_eq_zero h)
    simp only [list_firewall_rules, if_neg hlen]
  · intro creator_request_id firewall_domain_list_id priority action name
      block_response block_override_domain block_override_dns_type block_override_ttl
      now hr
    have hinner : innerRulesFor store firewall_rule_group_id = [] := by
      unfold innerRulesFor
      rcases hg : dictGet store.firewall_rules firewall_rule_group_id with _ | m
      · rfl
      · rw [hg] at hr
        have hm : m = [] := by
          cases m with
          | nil => rfl
          | cons p rest => exact absurd hr (by simp [dictValues])
        simp [hm]
    simp only [create_firewall_rule, list_firewall_rules, hinner]
    rw [dictGet_dictInsert_self]
    rfl

/-- Witness for the list_firewall_rules contract: after creating one
rule under the previously empty group rslvr-frg-1, listing that group
returns exactly the created record. -/
theorem list_firewall_rules_contract_witness :
    list_firewall_rules
        (create_firewall_rule emptyStore "req-1" "rslvr-frg-1" "rslvr-fdl-1" 100 "ALLOW"
          "rule-1" none none none none "t0").2 "rslvr-frg-1"
      = Except.ok [(create_firewall_rule emptyStore "req-1" "rslvr-frg-1" "rslvr-fdl-1" 100
          "ALLOW" "rule-1" none none none none "t0").1] :=
  (list_firewall_rules_contract emptyStore "rslvr-frg-1").2.2 "req-1" "rslvr-fdl-1" 100
    "ALLOW" "rule-1" none none none none "t0" (by decide)

/-! ## Firewall configs: get_firewall_config (lines 640-647) and
update_firewall_config (lines 665-682) -/

/-- Modelled from the spec: the id generator for firewall configs
(utils.py, not under src/); deterministic in the resource id here — no
claim depends on the id value. -/
def get_firewall_config_id (resource_id : String) : String :=
  "rslvr-fc-" ++ resource_id

/-- The default firewall config lazily materialized for a network
resource: default FirewallFailOpen value DISABLED, owned by the calling
account. -/
def newFirewallConfig (resource_id account : String) : FirewallConfig :=
  { Id := get_firewall_config_id resource_id
    ResourceId := resource_id
    OwnerId := account
    FirewallFailOpen := "DISABLED" }

/-- Modelled from the spec:
`Route53ResolverStore.get_or_create_firewall_config` (models.py, not
under src/) returns the existing config for the resource id if present;
otherwise it constructs one with the default FirewallFailOpen value,
inserts it, and returns it. -/
def get_or_create_firewall_config (store : Route53ResolverStore)
    (resource_id _region account : String) : FirewallConfig × Route53ResolverStore :=
  match dictGet store.firewall_configs resource_id with
  | some firewall_config => (firewall_config, store)
  | none =>
    let firewall_config := newFirewallConfig resource_id account
    (firewall_config,
      { store with firewall_configs :=
          dictInsert store.firewall_configs resource_id firewall_config })

/-- Embeds `Route53ResolverProvider.get_firewall_config`: a direct
delegation to the store's get_or_create accessor. -/
def get_firewall_config (store : Route53ResolverStore)
    (resource_id region account : String) : FirewallConfig × Route53ResolverStore :=
  get_or_create_firewall_config store resource_id region account

/-- C7: get_firewall_config / get_or_create_firewall_config called
twice with the same resource id returns the same record both times and
leaves the store unchanged on the second call — in particular the
second call does not reset FirewallFailOpen.  (The region/account
arguments of the second call are irrelevant once the record exists.) -/
theorem get_or_create_firewall_config_idempotent
    (store : Route53ResolverStore)
    (resource_id region region' account account' : String) :
    get_or_create_firewall_config
        (get_or_create_firewall_config store resource_id region account).2
        resource_id region' account'
      = get_or_create_firewall_config store resource_id region account ∧
    (get_or_create_firewall_config
        (get_or_create_firewall_config store resource_id region account).2
        resource_id region' account').1.FirewallFailOpen
      = (get_or_create_firewall_config store resource_id region account).1.FirewallFailOpen ∧
    get_firewall_config
        (get_firewall_config store resource_id region account).2
        resource_id region' account'
      = get_firewall_config store resource_id region account := by
  rcases hg : dictGet store.firewall_configs resource_id with _ | c
  · have h1 : get_or_create_firewall_config store resource_id region account
        = (newFirewallConfig resource_id account,
          { store with firewall_configs := dictInsert store.firewall_configs resource_id (newFirewallConfig resource_id account) }) := by
      simp only [get_or_create_firewall_config, hg]
    refine ⟨?_, ?_, ?_⟩
    · rw [h1]
      simp only [get_or_create_firewall_config, dictGet_dictInsert_self]
    · rw [h1]
      simp only [get_or_create_firewall_config, dictGet_dictInsert_self]
    · simp only [get_firewall_config]
      rw [h1]
      simp only [get_or_create_firewall_config, dictGet_dictInsert_self]
  · have h1 : get_or_create_firewall_config store resource_id region account
        = (c, store) := by
      simp only [get_or_create_firewall_config, hg]
    refine ⟨?_, ?_, ?_⟩
    · rw [h1]
      simp only [get_or_create_firewall_config, hg]
    · rw [h1]
      simp only [get_or_create_firewall_config, hg]
    · simp only [get_firewall_config]
      rw [h1]
      simp only [get_or_create_firewall_config, hg]

/-- One iteration of update_firewall_config's loop: the config the
iteration stores for a VPC — the existing record, or a freshly created
default one, with FirewallFailOpen overwritten. -/
def failOpenUpdatedConfig (configs : Dict FirewallConfig)
    (vpc firewall_fail_open account : String) : FirewallConfig :=
  match dictGet configs vpc with
  | none => { newFirewallConfig vpc account with FirewallFailOpen := firewall_fail_open }
  | some c0 => { c0 with FirewallFailOpen := firewall_fail_open }

/-- The loop of update_firewall_config over the external VPC inventory,
returning the updated config collection and the config bound by the
last iteration (none when the inventory is empty). -/
def setFailOpenAll (configs : Dict FirewallConfig) (vpcs : List String)
    (firewall_fail_open account : String) : Dict FirewallConfig × Option FirewallConfig :=
  match vpcs with
  | [] => (configs, none)
  | vpc :: rest =>
    let c := failOpenUpdatedConfig configs vpc firewall_fail_open account
    let next := setFailOpenAll (dictInsert configs vpc c) rest firewall_fail_open account
    (next.1, some (next.2.getD c))

/-- Embeds `Route53ResolverProvider.update_firewall_config`.  `vpcs` is
the external EC2 network inventory for the (account, region) scope.
The loop variable shadows the `resource_id` parameter, so the handler
overwrites FirewallFailOpen on the config of every VPC in the
inventory, creating default configs where missing; the response carries
the config bound by the last iteration, and with an empty inventory the
name `firewall_config` is unbound and the handler raises a NameError. -/
def update_firewall_config (store : Route53ResolverStore) (vpcs : List String)
    (resource_id firewall_fail_open account : String) :
    Except ApiError FirewallConfig × Route53ResolverStore :=
  let r := setFailOpenAll store.firewall_configs vpcs firewall_fail_open account
  match r.2 with
  | some c => (Except.ok c, { store with firewall_configs := r.1 })
  | none =>
    (Except.error (ApiError.nameError "firewall_config"),
      { store with firewall_configs := r.1 })

theorem firewallConfig_setFailOpen_self (c : FirewallConfig) (ffo : String)
    (h : c.FirewallFailOpen = ffo) : { c with FirewallFailOpen := ffo } = c := by
  cases c
  cases h
  rfl

theorem failOpenUpdatedConfig_failOpen (configs : Dict FirewallConfig)
    (vpc ffo account : String) :
    (failOpenUpdatedConfig configs vpc ffo account).FirewallFailOpen = ffo := by
  unfold failOpenUpdatedConfig
  rcases dictGet configs vpc with _ | c0 <;> rfl

theorem failOpenUpdatedConfig_congr (configs configs' : Dict FirewallConfig)
    (vpc ffo account : String)
    (h : dictGet configs' vpc = dictGet configs vpc) :
    failOpenUpdatedConfig configs' vpc ffo account
      = failOpenUpdatedConfig configs vpc ffo account := by
  unfold failOpenUpdatedConfig
  rw [h]

/-- A config already carrying the target FirewallFailOpen value is left
exactly as it is by the rest of the loop. -/
theorem setFailOpenAll_preserves (vpcs : List String) :
    ∀ (configs : Dict FirewallConfig) (vpc ffo account : String) (c : FirewallConfig),
      dictGet configs vpc = some c → c.FirewallFailOpen = ffo →
      dictGet (setFailOpenAll configs vpcs ffo account).1 vpc = some c := by
  induction vpcs with
  | nil =>
    intro configs vpc ffo account c hc _
    exact hc
  | cons u rest ih =>
    intro configs vpc ffo account c hc hffo
    by_cases hu : u = vpc
    · subst hu
      have hcfg : failOpenUpdatedConfig configs u ffo account = c := by
        unfold failOpenUpdatedConfig
        rw [hc]
        exact firewallConfig_setFailOpen_self c ffo hffo
      have hc' : dictGet (dictInsert configs u
          (failOpenUpdatedConfig configs u ffo account)) u = some c := by
        rw [dictGet_dictInsert_self, hcfg]
      simpa [setFailOpenAll] using ih _ u ffo account c hc' hffo
    · have hc' : dictGet (dictInsert configs u
          (failOpenUpdatedConfig configs u ffo account)) vpc = some c := by
        rw [dictGet_dictInsert_ne _ _ _ _ hu]
        exact hc
      simpa [setFailOpenAll] using ih _ vpc ffo account c hc' hffo

/-- Configs of resources outside the inventory are untouched. -/
theorem setFailOpenAll_frame (vpcs : List String) :
    ∀ (configs : Dict FirewallConfig) (rid ffo account : String),
      rid ∉ vpcs →
      dictGet (setFailOpenAll configs vpcs ffo account).1 rid = dictGet configs rid := by
  induction vpcs with
  | nil =>
    intro configs rid ffo account _
    rfl
  | cons u rest ih =>
    intro configs rid ffo account hrid
    have hu : u ≠ rid := fun h => hrid (by simp [h])
    have hrest : rid ∉ rest := fun h => hrid (by simp [h])
    have := ih (dictInsert configs u (failOpenUpdatedConfig configs u ffo account))
      rid ffo account hrest
    simpa [setFailOpenAll, dictGet_dictInsert_ne _ _ _ _ hu] using this

/-- Every VPC of the inventory ends up bound to its failOpen-updated
config, computed from its binding in the original collection. -/
theorem setFailOpenAll_get (vpcs : List String) :
    ∀ (configs : Dict FirewallConfig) (vpc ffo account : String),
      vpc ∈ vpcs →
      dictGet (setFailOpenAll configs vpcs ffo account).1 vpc
        = some (failOpenUpdatedConfig configs vpc ffo account) := by
  induction vpcs with
  | nil =>
    intro configs vpc ffo account h
    cases h
  | cons u rest ih =>
    intro configs vpc ffo account hmem
    by_cases hu : u = vpc
    · subst hu
      have hc' : dictGet (dictInsert configs u
          (failOpenUpdatedConfig configs u ffo account)) u
          = some (failOpenUpdatedConfig configs u ffo account) :=
        dictGet_dictInsert_self _ _ _
      have := setFailOpenAll_preserves rest
        (dictInsert configs u (failOpenUpdatedConfig configs u ffo account))
        u ffo account (failOpenUpdatedConfig configs u ffo account) hc'
        (failOpenUpdatedConfig_failOpen configs u ffo account)
      simpa [setFailOpenAll] using this
    · have hvrest : vpc ∈ rest := by
        rcases List.mem_cons.mp hmem with h | h
        · exact absurd h.symm hu
        · exact h
      have hgetcongr : dictGet (dictInsert configs u
          (failOpenUpdatedConfig configs u ffo account)) vpc = dictGet configs vpc :=
        dictGet_dictInsert_ne _ _ _ _ hu
      have := ih (dictInsert configs u (failOpenUpdatedConfig configs u ffo account))
        vpc ffo account hvrest
      rw [failOpenUpdatedConfig_congr _ _ _ _ _ hgetcongr] at this
      simpa [setFailOpenAll] using this

/-- C6: update_firewall_config writes FirewallFailOpen on the firewall
config of every network resource in the external inventory — creating
default configs where missing — and the resource_id argument does not
restrict which configs are written (it is shadowed by the loop
variable); configs of resources outside the inventory are untouched. -/
theorem update_firewall_config_writes_every_vpc
    (store : Route53ResolverStore) (vpcs : List String)
    (resource_id resource_id' firewall_fail_open account : String) :
    update_firewall_config store vpcs resource_id firewall_fail_open account
      = update_firewall_config store vpcs resource_id' firewall_fail_open account ∧
    (∀ vpc ∈ vpcs,
      (dictGet store.firewall_configs vpc = none →
        dictGet (update_firewall_config store vpcs resource_id
            firewall_fail_open account).2.firewall_configs vpc
          = some { newFirewallConfig vpc account with
                     FirewallFailOpen := firewall_fail_open }) ∧
      (∀ c0, dictGet store.firewall_configs vpc = some c0 →
        dictGet (update_firewall_config store vpcs resource_id
            firewall_fail_open account).2.firewall_configs vpc
          = some { c0 with FirewallFailOpen := firewall_fail_open })) ∧
    (∀ rid, rid ∉ vpcs →
      dictGet (update_firewall_config store vpcs resource_id
          firewall_fail_open account).2.firewall_configs rid
        = dictGet store.firewall_configs rid) := by
  have hconfigs : (update_firewall_config store vpcs resource_id
      firewall_fail_open account).2.firewall_configs
      = (setFailOpenAll store.firewall_configs vpcs firewall_fail_open account).1 := by
    simp only [update_firewall_config]
    rcases setFailOpenAll store.firewall_configs vpcs firewall_fail_open account
      with ⟨d, o⟩
    cases o <;> rfl
  refine ⟨rfl, ?_, ?_⟩
  · intro vpc hvpc
    have hget := setFailOpenAll_get vpcs store.firewall_configs vpc
      firewall_fail_open account hvpc
    constructor
    · intro hnone
      rw [hconfigs, hget]
      unfold failOpenUpdatedConfig
      rw [hnone]
    · intro c0 hc0
      rw [hconfigs, hget]
      unfold failOpenUpdatedConfig
      rw [hc0]
  · intro rid hrid
    rw [hconfigs]
    exact setFailOpenAll_frame vpcs store.firewall_configs rid
      firewall_fail_open account hrid

/-- Witness for the update_firewall_config frame effect: updating with
resource_id "vpc-other" still writes the config of "vpc-1", the only
inventory entry, creating it with the default shape. -/
theorem update_firewall_config_writes_every_vpc_witness :
    dictGet emptyStore.firewall_configs "vpc-1" = none ∧
    dictGet (update_firewall_config emptyStore ["vpc-1"] "vpc-other"
        "ENABLED" "000000000000").2.firewall_configs "vpc-1"
      = some { newFirewallConfig "vpc-1" "000000000000" with
                 FirewallFailOpen := "ENABLED" } :=
  ⟨by decide,
    ((update_firewall_config_writes_every_vpc emptyStore ["vpc-1"] "vpc-other"
        "vpc-other2" "ENABLED" "000000000000").2.1 "vpc-1" (by decide)).1 (by decide)⟩

/-! ## Creates and gets: rule groups (lines 97-145), domain lists
(lines 159-206), query-log configs (lines 493-532) -/

/-- The string `needle` occurs contiguously inside `hay`. -/
def containsStr (hay needle : String) : Prop :=
  ∃ p q, hay.data = p ++ needle.data ++ q

theorem append_ne_empty_left (a b : String) (h : a.data ≠ []) : a ++ b ≠ "" := by
  intro hc
  have hdata : (a ++ b).data = "".data := congrArg String.data hc
  rw [String.data_append] at hdata
  have : a.data = [] := (List.append_eq_nil.mp hdata).1
  exact h this

theorem resourceArn_contains_account (kind account region id : String) :
    containsStr (resourceArn kind account region id) account := by
  refine ⟨("route53resolver:" ++ kind ++ ":").data,
    (":" ++ region ++ ":" ++ id).data, ?_⟩
  simp [resourceArn, String.data_append, List.append_assoc]

theorem resourceArn_contains_region (kind account region id : String) :
    containsStr (resourceArn kind account region id) region := by
  refine ⟨("route53resolver:" ++ kind ++ ":" ++ account ++ ":").data,
    (":" ++ id).data, ?_⟩
  simp [resourceArn, String.data_append, List.append_assoc]

/-- The rule-group record built by create_firewall_rule_group. -/
def newFirewallRuleGroup (account region creator_request_id name id now : String) :
    FirewallRuleGroup :=
  { Id := id
    Arn := resourceArn "firewall-rule-group" account region id
    Name := name
    RuleCount := 0
    Status := "COMPLETE"
    OwnerId := account
    ShareStatus := "NOT_SHARED"
    StatusMessage := "Created Firewall Rule Group"
    CreatorRequestId := creator_request_id
    CreationTime := now
    ModificationTime := now }

/-- Embeds `Route53ResolverProvider.create_firewall_rule_group`.  The
generated id comes from the seeded generator; the tagging collaborator
call has no store effect and is not modelled. -/
def create_firewall_rule_group (store : Route53ResolverStore)
    (account region creator_request_id name : String) (seed : Nat) (now : String) :
    FirewallRuleGroup × Route53ResolverStore :=
  let id := get_route53_resolver_firewall_rule_group_id seed
  let firewall_rule_group :=
    newFirewallRuleGroup account region creator_request_id name id now
  (firewall_rule_group,
    { store with firewall_rule_groups :=
        dictInsert store.firewall_rule_groups id firewall_rule_group })

/-- Embeds `Route53ResolverProvider.get_firewall_rule_group`; the store
accessor (models.py, not under src/) is modelled from the spec: the
record, or Not-Found when the id is absent from the scoped collection. -/
def get_firewall_rule_group (store : Route53ResolverStore) (id : String) :
    Except ApiError FirewallRuleGroup :=
  match dictGet store.firewall_rule_groups id with
  | some g => Except.ok g
  | none => Except.error (ApiError.resourceNotFound id)

/-- The domain-list record built by create_firewall_domain_list. -/
def newFirewallDomainList (account region creator_request_id name id now : String) :
    FirewallDomainList :=
  { Id := id
    Arn := resourceArn "firewall-domain-list" account region id
    Name := name
    DomainCount := 0
    Status := "COMPLETE"
    StatusMessage := "Created Firewall Domain List"
    ManagedOwnerName := account
    CreatorRequestId := creator_request_id
    CreationTime := now
    ModificationTime := now }

/-- Embeds `Route53ResolverProvider.create_firewall_domain_list`. -/
def create_firewall_domain_list (store : Route53ResolverStore)
    (account region creator_request_id name : String) (seed : Nat) (now : String) :
    FirewallDomainList × Route53ResolverStore :=
  let id := get_route53_resolver_firewall_domain_list_id seed
  let firewall_domain_list :=
    newFirewallDomainList account region creator_request_id name id now
  (firewall_domain_list,
    { store with firewall_domain_lists :=
        dictInsert store.firewall_domain_lists id firewall_domain_list })

/-- Embeds `Route53ResolverProvider.get_firewall_domain_list`; the
store accessor (models.py, not under src/) is modelled from the spec. -/
def get_firewall_domain_list (store : Route53ResolverStore) (id : String) :
    Except ApiError FirewallDomainList :=
  match dictGet store.firewall_domain_lists id with
  | some l => Except.ok l
  | none => Except.error (ApiError.resourceNotFound id)

/-- Modelled from the spec: message of the validation error raised by
validate_destination_arn on a malformed destination. -/
def invalidDestinationArnMsg (destination_arn traceId : String) : String :=
  "[RSLVR-01014] Malformed ARN: '" ++ destination_arn
    ++ "'. Trace Id: '" ++ traceId ++ "'"

/-- The query-log-config record built by create_resolver_query_log_config
(note: no ModificationTime key is written for this kind). -/
def newResolverQueryLogConfig
    (account region name destination_arn creator_request_id id now : String) :
    ResolverQueryLogConfig :=
  { Id := id
    Arn := resourceArn "resolver-query-log-config" account region id
    Name := name
    AssociationCount := 0
    Status := "CREATED"
    OwnerId := account
    ShareStatus := "NOT_SHARED"
    DestinationArn := destination_arn
    CreatorRequestId := creator_request_id
    CreationTime := now }

/-- Embeds `Route53ResolverProvider.create_resolver_query_log_config`:
validates the destination ARN, then inserts a fresh record. -/
def create_resolver_query_log_config (store : Route53ResolverStore)
    (account region name destination_arn creator_request_id : String)
    (seed : Nat) (now traceId : String) :
    Except ApiError ResolverQueryLogConfig × Route53ResolverStore :=
  if validate_destination_arn destination_arn = false then
    (Except.error (ApiError.validation
      (invalidDestinationArnMsg destination_arn traceId)), store)
  else
    let id := get_resolver_query_log_config_id seed
    let resolver_query_log_config :=
      newResolverQueryLogConfig account region name destination_arn
        creator_request_id id now
    (Except.ok resolver_query_log_config,
      { store with resolver_query_log_configs :=
          dictInsert store.resolver_query_log_configs id resolver_query_log_config })

/-- Embeds `Route53ResolverProvider.get_resolver_query_log_config`; the
store accessor (models.py, not under src/) is modelled from the spec. -/
def get_resolver_query_log_config (store : Route53ResolverStore) (id : String) :
    Except ApiError ResolverQueryLogConfig :=
  match dictGet store.resolver_query_log_configs id with
  | some c => Except.ok c
  | none => Except.error (ApiError.resourceNotFound id)

/-- C8: for firewall rule groups, firewall domain lists and query-log
configs, the created record carries a non-empty identifier and an ARN
containing the calling account and region, an immediately following get
with the returned id yields the identical record, and every
caller-supplied field (name, creator request id, destination ARN) is
present unchanged. -/
theorem create_get_round_trip (store : Route53ResolverStore)
    (account region creator_request_id name destination_arn : String)
    (seed : Nat) (now traceId : String)
    (hdest : validate_destination_arn destination_arn = true) :
    ((create_firewall_rule_group store account region creator_request_id
        name seed now).1.Id ≠ "" ∧
      containsStr (create_firewall_rule_group store account region creator_request_id
        name seed now).1.Arn account ∧
      containsStr (create_firewall_rule_group store account region creator_request_id
        name seed now).1.Arn region ∧
      get_firewall_rule_group
          (create_firewall_rule_group store account region creator_request_id
            name seed now).2
          (create_firewall_rule_group store account region creator_request_id
            name seed now).1.Id
        = Except.ok (create_firewall_rule_group store account region creator_request_id
            name seed now).1 ∧
      (create_firewall_rule_group store account region creator_request_id
        name seed now).1.Name = name ∧
      (create_firewall_rule_group store account region creator_request_id
        name seed now).1.CreatorRequestId = creator_request_id) ∧
    ((create_firewall_domain_list store account region creator_request_id
        name seed now).1.Id ≠ "" ∧
      containsStr (create_firewall_domain_list store account region creator_request_id
        name seed now).1.Arn account ∧
      containsStr (create_firewall_domain_list store account region creator_request_id
        name seed now).1.Arn region ∧
      get_firewall_domain_list
          (create_firewall_domain_list store account region creator_request_id
            name seed now).2
          (create_firewall_domain_list store account region creator_request_id
            name seed now).1.Id
        = Except.ok (create_firewall_domain_list store account region creator_request_id
            name seed now).1 ∧
      (create_firewall_domain_list store account region creator_request_id
        name seed now).1.Name = name ∧
      (create_firewall_domain_list store account region creator_request_id
        name seed now).1.CreatorRequestId = creator_request_id) ∧
    (∃ qlc s', create_resolver_query_log_config store account region name
        destination_arn creator_request_id seed now traceId = (Except.ok qlc, s') ∧
      qlc.Id ≠ "" ∧
      containsStr qlc.Arn account ∧
      containsStr qlc.Arn region ∧
      get_resolver_query_log_config s' qlc.Id = Except.ok qlc ∧
      qlc.Name = name ∧
      qlc.DestinationArn = destination_arn ∧
      qlc.CreatorRequestId = creator_request_id) := by
  have hdest' : (validate_destination_arn destination_arn = false) = False := by
    simp [hdest]
  refine ⟨⟨?_, ?_, ?_, ?_, rfl, rfl⟩, ⟨?_, ?_, ?_, ?_, rfl, rfl⟩, ?_⟩
  · exact append_ne_empty_left "rslvr-frg-" (Nat.repr seed) (by decide)
  · exact resourceArn_contains_account _ _ _ _
  · exact resourceArn_contains_region _ _ _ _
  · simp only [create_firewall_rule_group, get_firewall_rule_group,
      newFirewallRuleGroup, dictGet_dictInsert_self]
  · exact append_ne_empty_left "rslvr-fdl-" (Nat.repr seed) (by decide)
  · exact resourceArn_contains_account _ _ _ _
  · exact resourceArn_contains_region _ _ _ _
  · simp only [create_firewall_domain_list, get_firewall_domain_list,
      newFirewallDomainList, dictGet_dictInsert_self]
  · have hcreate : create_resolver_query_log_config store account region name
        destination_arn creator_request_id seed now traceId
        = (Except.ok (newResolverQueryLogConfig account region name destination_arn
            creator_request_id (get_resolver_query_log_config_id seed) now),
          { store with resolver_query_log_configs := dictInsert store.resolver_query_log_configs (get_resolver_query_log_config_id seed) (newResolverQueryLogConfig account region name destination_arn creator_request_id (get_resolver_query_log_config_id seed) now) }) := by
      simp only [create_resolver_query_log_config, hdest', if_false]
    refine ⟨_, _, hcreate, ?_, ?_, ?_, ?_, rfl, rfl, rfl⟩
    · exact append_ne_empty_left "rslvr-rqlc-" (Nat.repr seed) (by decide)
    · exact resourceArn_contains_account _ _ _ _
    · exact resourceArn_contains_region _ _ _ _
    · simp only [get_resolver_query_log_config, newResolverQueryLogConfig,
        dictGet_dictInsert_self]

/-- Witness for the create/get round trip at concrete inputs with a
well-formed destination ARN. -/
theorem create_get_round_trip_witness :
    validate_destination_arn "arn:aws:s3:::qlc-bucket" = true ∧
    get_firewall_rule_group
        (create_firewall_rule_group emptyStore "000000000000" "us-east-1" "req-1"
          "rg-name" 7 "t0").2
        (create_firewall_rule_group emptyStore "000000000000" "us-east-1" "req-1"
          "rg-name" 7 "t0").1.Id
      = Except.ok (create_firewall_rule_group emptyStore "000000000000" "us-east-1" "req-1"
          "rg-name" 7 "t0").1 :=
  ⟨by decide,
    ((create_get_round_trip emptyStore "000000000000" "us-east-1" "req-1" "rg-name"
      "arn:aws:s3:::qlc-bucket" 7 "t0" "tr0" (by decide)).1).2.2.2.1⟩

/-! ## update_firewall_rule (lines 353-388) and
update_firewall_rule_group_association (lines 465-491) -/

/-- Python truthiness of an optional integer argument: absent or zero
is falsy. -/
def pyTruthyNat : Option Nat → Bool
  | some n => n != 0
  | none => false

/-- Python truthiness of an optional string argument: absent or empty
is falsy. -/
def pyTruthyStr : Option String → Bool
  | some s => s != ""
  | none => false

/-- One `if arg: record[field] = arg` statement on an integer field. -/
def patchNat (cur : Nat) (arg : Option Nat) : Nat :=
  if pyTruthyNat arg then arg.getD 0 else cur

/-- One `if arg: record[field] = arg` statement on a string field. -/
def patchStr (cur : String) (arg : Option String) : String :=
  if pyTruthyStr arg then arg.getD "" else cur

/-- One `if arg: record[field] = arg` statement on an optional string
field. -/
def patchOptStr (cur arg : Option String) : Option String :=
  if pyTruthyStr arg then arg else cur

/-- One `if arg: record[field] = arg` statement on an optional integer
field. -/
def patchOptNat (cur arg : Option Nat) : Option Nat :=
  if pyTruthyNat arg then arg else cur

theorem patchNat_spec (cur : Nat) (arg : Option Nat) :
    patchNat cur arg = cur ∨ arg = some (patchNat cur arg) := by
  cases arg with
  | none => exact Or.inl rfl
  | some p =>
    by_cases hp : p = 0
    · subst hp
      exact Or.inl (by simp [patchNat, pyTruthyNat])
    · right
      simp [patchNat, pyTruthyNat, hp]

theorem patchStr_spec (cur : String) (arg : Option String) :
    patchStr cur arg = cur ∨ arg = some (patchStr cur arg) := by
  cases arg with
  | none => exact Or.inl rfl
  | some s =>
    by_cases hs : s = ""
    · subst hs
      exact Or.inl (by simp [patchStr, pyTruthyStr])
    · right
      simp [patchStr, pyTruthyStr, hs]

theorem patchOptStr_spec (cur arg : Option String) :
    patchOptStr cur arg = cur ∨ patchOptStr cur arg = arg := by
  unfold patchOptStr
  by_cases h : pyTruthyStr arg = true
  · simp [h]
  · simp [h]

theorem patchOptNat_spec (cur arg : Option Nat) :
    patchOptNat cur arg = cur ∨ patchOptNat cur arg = arg := by
  unfold patchOptNat
  by_cases h : pyTruthyNat arg = true
  · simp [h]
  · simp [h]

/-- Modelled from the spec: store accessor `get_firewall_rule`
(models.py, not under src/): the rule keyed by (rule-group id,
domain-list id) in the nested mapping, if any. -/
def get_firewall_rule (store : Route53ResolverStore)
    (firewall_rule_group_id firewall_domain_list_id : String) : Option FirewallRule :=
  (dictGet store.firewall_rules firewall_rule_group_id).bind
    (fun inner => dictGet inner firewall_domain_list_id)

/-- The rule record after update_firewall_rule's seven
`if arg: rule[field] = arg` statements: each field is overwritten only
when its argument is truthy; all other keys are untouched. -/
def patchedFirewallRule (r : FirewallRule) (priority : Option Nat)
    (action block_response block_override_domain block_override_dns_type : Option String)
    (block_override_ttl : Option Nat) (name : Option String) : FirewallRule :=
  { r with
      Priority := patchNat r.Priority priority
      Action := patchStr r.Action action
      BlockResponse := patchOptStr r.BlockResponse block_response
      BlockOverrideDomain := patchOptStr r.BlockOverrideDomain block_override_domain
      BlockOverrideDnsType := patchOptStr r.BlockOverrideDnsType block_override_dns_type
      BlockOverrideTtl := patchOptNat r.BlockOverrideTtl block_override_ttl
      Name := patchStr r.Name name }

/-- Embeds `Route53ResolverProvider.update_firewall_rule`: fetch the
rule (Not-Found when absent), overwrite each field whose argument is
truthy, and leave the mutated record in the nested mapping. -/
def update_firewall_rule (store : Route53ResolverStore)
    (firewall_rule_group_id firewall_domain_list_id : String)
    (priority : Option Nat)
    (action block_response block_override_domain block_override_dns_type : Option String)
    (block_override_ttl : Option Nat) (name : Option String) :
    Except ApiError FirewallRule × Route53ResolverStore :=
  match get_firewall_rule store firewall_rule_group_id firewall_domain_list_id with
  | none => (Except.error (ApiError.resourceNotFound firewall_rule_group_id), store)
  | some firewall_rule =>
    let r := patchedFirewallRule firewall_rule priority action block_response
      block_override_domain block_override_dns_type block_override_ttl name
    let inner := (dictGet store.firewall_rules firewall_rule_group_id).getD []
    let newRules := dictInsert store.firewall_rules firewall_rule_group_id
      (dictInsert inner firewall_domain_list_id r)
    (Except.ok r, { store with firewall_rules := newRules })

/-- The association record after update_firewall_rule_group_association's
three `if arg:` statements. -/
def patchedFrgAssociation (a : FirewallRuleGroupAssociation)
    (priority : Option Nat) (mutation_protection name : Option String) :
    FirewallRuleGroupAssociation :=
  { a with
      Priority := patchNat a.Priority priority
      MutationProtection := patchStr a.MutationProtection mutation_protection
      Name := patchStr a.Name name }

/-- Embeds `Route53ResolverProvider.update_firewall_rule_group_association`:
validate priority and mutation protection, fetch the association
(Not-Found when absent), overwrite each field whose argument is truthy. -/
def update_firewall_rule_group_association (store : Route53ResolverStore)
    (firewall_rule_group_association_id : String) (priority : Option Nat)
    (mutation_protection name : Option String) (traceId : String) :
    Except ApiError FirewallRuleGroupAssociation × Route53ResolverStore :=
  if validate_priority priority = false then
    (Except.error (ApiError.validation
      (invalidPriorityMsg (priority.getD 0) traceId)), store)
  else if validate_mutation_protection mutation_protection = false then
    (Except.error (ApiError.validation
      (invalidMutationProtectionMsg (mutation_protection.getD "") traceId)), store)
  else
    match dictGet store.firewall_rule_group_associations
        firewall_rule_group_association_id with
    | none =>
      (Except.error (ApiError.resourceNotFound firewall_rule_group_association_id),
        store)
    | some a =>
      let a' := patchedFrgAssociation a priority mutation_protection name
      let newAssociations := dictInsert store.firewall_rule_group_associations
        firewall_rule_group_association_id a'
      (Except.ok a',
        { store with firewall_rule_group_associations := newAssociations })

/-- C9: update_firewall_rule (and likewise
update_firewall_rule_group_association) leaves every field for which no
value was supplied exactly as it was — including the keys no argument
can touch — and every field either keeps its previous value or carries
the explicitly supplied one; the patched record is what the call
returns and what the store then holds. -/
theorem update_firewall_rule_patches_only_supplied_fields
    (store : Route53ResolverStore)
    (firewall_rule_group_id firewall_domain_list_id
      firewall_rule_group_association_id : String)
    (priority : Option Nat)
    (action block_response block_override_domain block_override_dns_type : Option String)
    (block_override_ttl : Option Nat) (name mutation_protection : Option String)
    (traceId : String) (r : FirewallRule) (a : FirewallRuleGroupAssociation)
    (hrule : get_firewall_rule store firewall_rule_group_id firewall_domain_list_id
      = some r)
    (hassoc : dictGet store.firewall_rule_group_associations
      firewall_rule_group_association_id = some a)
    (hvp : validate_priority priority = true)
    (hvm : validate_mutation_protection mutation_protection = true) :
    ((update_firewall_rule store firewall_rule_group_id firewall_domain_list_id
        priority action block_response block_override_domain block_override_dns_type
        block_override_ttl name).1
      = Except.ok (patchedFirewallRule r priority action block_response
          block_override_domain block_override_dns_type block_override_ttl name)) ∧
    (get_firewall_rule
        (update_firewall_rule store firewall_rule_group_id firewall_domain_list_id
          priority action block_response block_override_domain block_override_dns_type
          block_override_ttl name).2
        firewall_rule_group_id firewall_domain_list_id
      = some (patchedFirewallRule r priority action block_response
          block_override_domain block_override_dns_type block_override_ttl name)) ∧
    ((priority = none → (patchedFirewallRule r priority action block_response
        block_override_domain block_override_dns_type block_override_ttl name).Priority
          = r.Priority) ∧
      (action = none → (patchedFirewallRule r priority action block_response
        block_override_domain block_override_dns_type block_override_ttl name).Action
          = r.Action) ∧
      (block_response = none → (patchedFirewallRule r priority action block_response
        block_override_domain block_override_dns_type
        block_override_ttl name).BlockResponse = r.BlockResponse) ∧
      (block_override_domain = none → (patchedFirewallRule r priority action
        block_response block_override_domain block_override_dns_type
        block_override_ttl name).BlockOverrideDomain = r.BlockOverrideDomain) ∧
      (block_override_dns_type = none → (patchedFirewallRule r priority action
        block_response block_override_domain block_override_dns_type
        block_override_ttl name).BlockOverrideDnsType = r.BlockOverrideDnsType) ∧
      (block_override_ttl = none → (patchedFirewallRule r priority action
        block_response block_override_domain block_override_dns_type
        block_override_ttl name).BlockOverrideTtl = r.BlockOverrideTtl) ∧
      (name = none → (patchedFirewallRule r priority action block_response
        block_override_domain block_override_dns_type
        block_override_ttl name).Name = r.Name)) ∧
    (((patchedFirewallRule r priority action block_response block_override_domain
        block_override_dns_type block_override_ttl name).Priority = r.Priority
        ∨ priority = some (patchedFirewallRule r priority action block_response
            block_override_domain block_override_dns_type
            block_override_ttl name).Priority) ∧
      ((patchedFirewallRule r priority action block_response block_override_domain
        block_override_dns_type block_override_ttl name).Action = r.Action
        ∨ action = some (patchedFirewallRule r priority action block_response
            block_override_domain block_override_dns_type
            block_override_ttl name).Action) ∧
      ((patchedFirewallRule r priority action block_response block_override_domain
        block_override_dns_type block_override_ttl name).BlockResponse = r.BlockResponse
        ∨ (patchedFirewallRule r priority action block_response block_override_domain
            block_override_dns_type block_override_ttl name).BlockResponse
          = block_response) ∧
      ((patchedFirewallRule r priority action block_response block_override_domain
        block_override_dns_type
        block_override_ttl name).BlockOverrideDomain = r.BlockOverrideDomain
        ∨ (patchedFirewallRule r priority action block_response block_override_domain
            block_override_dns_type block_override_ttl name).BlockOverrideDomain
          = block_override_domain) ∧
      ((patchedFirewallRule r priority action block_response block_override_domain
        block_override_dns_type
        block_override_ttl name).BlockOverrideDnsType = r.BlockOverrideDnsType
        ∨ (patchedFirewallRule r priority action block_response block_override_domain
            block_override_dns_type block_override_ttl name).BlockOverrideDnsType
          = block_override_dns_type) ∧
      ((patchedFirewallRule r priority action block_response block_override_domain
        block_override_dns_type
        block_override_ttl name).BlockOverrideTtl = r.BlockOverrideTtl
        ∨ (patchedFirewallRule r priority action block_response block_override_domain
            block_override_dns_type block_override_ttl name).BlockOverrideTtl
          = block_override_ttl) ∧
      ((patchedFirewallRule r priority action block_response block_override_domain
        block_override_dns_type block_override_ttl name).Name = r.Name
        ∨ name = some (patchedFirewallRule r priority action block_response
            block_override_domain block_override_dns_type
            block_override_ttl name).Name)) ∧
    ((patchedFirewallRule r priority action block_response block_override_domain
        block_override_dns_type
        block_override_ttl name).FirewallRuleGroupId = r.FirewallRuleGroupId ∧
      (patchedFirewallRule r priority action block_response block_override_domain
        block_override_dns_type
        block_override_ttl name).FirewallDomainListId = r.FirewallDomainListId ∧
      (patchedFirewallRule r priority action block_response block_override_domain
        block_override_dns_type
        block_override_ttl name).CreatorRequestId = r.CreatorRequestId ∧
      (patchedFirewallRule r priority action block_response block_override_domain
        block_override_dns_type
        block_override_ttl name).CreationTime = r.CreationTime ∧
      (patchedFirewallRule r priority action block_response block_override_domain
        block_override_dns_type
        block_override_ttl name).ModificationTime = r.ModificationTime) ∧
    ((update_firewall_rule_group_association store
        firewall_rule_group_association_id priority mutation_protection
        name traceId).1
      = Except.ok (patchedFrgAssociation a priority mutation_protection name) ∧
      dictGet (update_firewall_rule_group_association store
          firewall_rule_group_association_id priority mutation_protection
          name traceId).2.firewall_rule_group_associations
          firewall_rule_group_association_id
        = some (patchedFrgAssociation a priority mutation_protection name) ∧
      (priority = none →
        (patchedFrgAssociation a priority mutation_protection name).Priority
          = a.Priority) ∧
      (mutation_protection = none →
        (patchedFrgAssociation a priority mutation_protection name).MutationProtection
          = a.MutationProtection) ∧
      (name = none →
        (patchedFrgAssociation a priority mutation_protection name).Name = a.Name) ∧
      ((patchedFrgAssociation a priority mutation_protection name).Priority
          = a.Priority
        ∨ priority = some (patchedFrgAssociation a priority
            mutation_protection name).Priority) ∧
      ((patchedFrgAssociation a priority mutation_protection name).MutationProtection
          = a.MutationProtection
        ∨ mutation_protection = some (patchedFrgAssociation a priority
            mutation_protection name).MutationProtection) ∧
      ((patchedFrgAssociation a priority mutation_protection name).Name = a.Name
        ∨ name = some (patchedFrgAssociation a priority mutation_protection name).Name) ∧
      (patchedFrgAssociation a priority mutation_protection name).Id = a.Id ∧
      (patchedFrgAssociation a priority mutation_protection name).Arn = a.Arn ∧
      (patchedFrgAssociation a priority mutation_protection name).VpcId = a.VpcId ∧
      (patchedFrgAssociation a priority mutation_protection
        name).FirewallRuleGroupId = a.FirewallRuleGroupId) := by
  have hvp' : (validate_priority priority = false) = False := by simp [hvp]
  have hvm' : (validate_mutation_protection mutation_protection = false) = False := by
    simp [hvm]
  refine ⟨?_, ?_, ?_, ?_, ⟨rfl, rfl, rfl, rfl, rfl⟩, ?_, ?_, ?_, ?_, ?_, ?_, ?_, ?_,
    rfl, rfl, rfl, rfl⟩
  · simp only [update_firewall_rule, hrule]
  · simp only [update_firewall_rule, hrule]
    simp only [get_firewall_rule, dictGet_dictInsert_self, Option.some_bind]
  · refine ⟨?_, ?_, ?_, ?_, ?_, ?_, ?_⟩ <;> intro h <;> subst h <;>
      simp [patchedFirewallRule, patchNat, patchStr, patchOptStr, patchOptNat,
        pyTruthyNat, pyTruthyStr]
  · refine ⟨?_, ?_, ?_, ?_, ?_, ?_, ?_⟩
    · simpa [patchedFirewallRule] using patchNat_spec r.Priority priority
    · simpa [patchedFirewallRule] using patchStr_spec r.Action action
    · simpa [patchedFirewallRule] using patchOptStr_spec r.BlockResponse block_response
    · simpa [patchedFirewallRule] using
        patchOptStr_spec r.BlockOverrideDomain block_override_domain
    · simpa [patchedFirewallRule] using
        patchOptStr_spec r.BlockOverrideDnsType block_override_dns_type
    · simpa [patchedFirewallRule] using
        patchOptNat_spec r.BlockOverrideTtl block_override_ttl
    · simpa [patchedFirewallRule] using patchStr_spec r.Name name
  · simp only [update_firewall_rule_group_association, hvp', hvm', if_false, hassoc]
  · simp only [update_firewall_rule_group_association, hvp', hvm', if_false, hassoc,
      dictGet_dictInsert_self]
  · intro h
    subst h
    simp [patchedFrgAssociation, patchNat, pyTruthyNat]
  · intro h
    subst h
    simp [patchedFrgAssociation, patchStr, pyTruthyStr]
  · intro h
    subst h
    simp [patchedFrgAssociation, patchStr, pyTruthyStr]
  · simpa [patchedFrgAssociation] using patchNat_spec a.Priority priority
  · simpa [patchedFrgAssociation] using
      patchStr_spec a.MutationProtection mutation_protection
  · simpa [patchedFrgAssociation] using patchStr_spec a.Name name

def ruleSample : FirewallRule :=
  { FirewallRuleGroupId := "rslvr-frg-1", FirewallDomainListId := "rslvr-fdl-1",
    Name := "rule-1", Priority := 100, Action := "ALLOW", BlockResponse := none,
    BlockOverrideDomain := none, BlockOverrideDnsType := none,
    BlockOverrideTtl := none, CreatorRequestId := "req-1",
    CreationTime := "t0", ModificationTime := "t0" }

def assocSample : FirewallRuleGroupAssociation :=
  newFirewallRuleGroupAssociation "000000000000" "us-east-1" "req-1"
    "rslvr-frg-1" "vpc-1" 100 "assoc-1" none "rslvr-frgassoc-1" "t0"

/-- A store holding one firewall rule and one rule-group association. -/
def storeForUpdate : Route53ResolverStore :=
  { emptyStore with
      firewall_rules := [("rslvr-frg-1", [("rslvr-fdl-1", ruleSample)])]
      firewall_rule_group_associations := [("rslvr-frgassoc-1", assocSample)] }

/-- Witness for the patching contract: updating the sample rule with
only priority 200 supplied returns exactly the patched record. -/
theorem update_firewall_rule_patches_only_supplied_fields_witness :
    get_firewall_rule storeForUpdate "rslvr-frg-1" "rslvr-fdl-1" = some ruleSample ∧
    validate_priority (some 200) = true ∧
    (update_firewall_rule storeForUpdate "rslvr-frg-1" "rslvr-fdl-1" (some 200) none
        none none none none none).1
      = Except.ok (patchedFirewallRule ruleSample (some 200) none none none none
          none none) :=
  ⟨by decide, by decide,
    (update_firewall_rule_patches_only_supplied_fields storeForUpdate "rslvr-frg-1"
      "rslvr-fdl-1" "rslvr-frgassoc-1" (some 200) none none none none none none none
      "tr0" ruleSample assocSample (by decide) (by decide) (by decide) (by decide)).1⟩

/-! ## The ARN-recognition patch hook (lines 685-704) -/

/-- Every firewall rule of the scope, across all rule groups. -/
def allFirewallRules (store : Route53ResolverStore) : List FirewallRule :=
  ((dictValues store.firewall_rules).map dictValues).flatten

/-- Python `firewall_rule.get("Arn")`: create_firewall_rule writes no
Arn key into a rule record, so the lookup always yields None. -/
def firewallRuleArn (_r : FirewallRule) : Option String := none

/-- Python `association.get("Arn")`:
associate_resolver_query_log_config writes no Arn key into the
association record, so the lookup always yields None. -/
def resolverQueryLogConfigAssociationArn
    (_a : ResolverQueryLogConfigAssociation) : Option String := none

/-- Embeds the patched `Route53ResolverBackend._matched_arn` hook: true
when the handler returns early (suppressing the host backend's fallback
not-found error), i.e. when one of the four scanned collections holds a
record whose Arn equals the given ARN. -/
def matched_arn_suppresses (store : Route53ResolverStore) (resource_arn : String) :
    Bool :=
  (dictValues store.firewall_rule_groups).any (fun r => r.Arn == resource_arn) ||
  (dictValues store.firewall_domain_lists).any (fun l => l.Arn == resource_arn) ||
  (dictValues store.firewall_rule_group_associations).any
    (fun a => a.Arn == resource_arn) ||
  (dictValues store.resolver_query_log_configs).any (fun c => c.Arn == resource_arn)

/-- The ARN is recognized by some record across all six collections of
the owning scope — for firewall rules and query-log-config
associations, whose records carry no Arn key, recognition compares the
(absent) Arn attribute. -/
def arnRecognizedInStore (store : Route53ResolverStore) (resource_arn : String) :
    Prop :=
  (∃ r ∈ dictValues store.firewall_rule_groups, r.Arn = resource_arn) ∨
  (∃ l ∈ dictValues store.firewall_domain_lists, l.Arn = resource_arn) ∨
  (∃ r ∈ allFirewallRules store, firewallRuleArn r = some resource_arn) ∨
  (∃ a ∈ dictValues store.firewall_rule_group_associations, a.Arn = resource_arn) ∨
  (∃ c ∈ dictValues store.resolver_query_log_configs, c.Arn = resource_arn) ∨
  (∃ a ∈ dictValues store.resolver_query_log_config_associations,
    resolverQueryLogConfigAssociationArn a = some resource_arn)

/-- C10: the patched ARN-recognition hook suppresses the host backend's
fallback error exactly when the ARN matches some record across the six
collections of the owning scope (rules and query-log-config
associations never match: their records carry no Arn). -/
theorem matched_arn_suppresses_iff_recognized (store : Route53ResolverStore)
    (resource_arn : String) :
    matched_arn_suppresses store resource_arn = true
      ↔ arnRecognizedInStore store resource_arn := by
  unfold matched_arn_suppresses arnRecognizedInStore
  simp only [Bool.or_eq_true, List.any_eq_true, beq_iff_eq, firewallRuleArn,
    resolverQueryLogConfigAssociationArn]
  constructor
  · intro h
    rcases h with ((h | h) | h) | h
    · exact Or.inl h
    · exact Or.inr (Or.inl h)
    · exact Or.inr (Or.inr (Or.inr (Or.inl h)))
    · exact Or.inr (Or.inr (Or.inr (Or.inr (Or.inl h))))
  · intro h
    rcases h with h | h | h | h | h | h
    · exact Or.inl (Or.inl (Or.inl h))
    · exact Or.inl (Or.inl (Or.inr h))
    · obtain ⟨r, -, hr⟩ := h
      exact Option.noConfusion hr
    · exact Or.inl (Or.inr h)
    · exact Or.inr h
    · obtain ⟨a, -, ha⟩ := h
      exact Option.noConfusion ha

end Route53Resolver
